import Mathlib

/-!
Verification of the OurSchool homeschool-administration core: the points
ledger (`app/crud/points.py`), the grade aggregation and term-grade
recalculation logic (`app/models/assignment.py`, `app/models/term.py`,
`app/services/term_grading.py`, `app/routers/assignments.py`) and the
attendance aggregator (`app/utils/attendance.py`), shallowly embedded as
executable Lean definitions.

Conventions of the embedding:
* SQL `Integer` columns are `Int`, `Float` columns are `Rat`, nullable
  columns are `Option _`, dates are `Int` (ordinal day numbers).
* A database table is a `List` of row structures, in insertion order;
  `query(...).first()` is `List.find?`, `session.add` appends.
* Timestamp bookkeeping columns (`created_at`, `updated_at`,
  `last_calculated`) are omitted: no verified property mentions them.
* Python truthiness tests on numbers/strings/None are modelled by
  explicit `pyFalsy*` helpers.
-/

namespace OurSchool

/-! ## Points subsystem (`app/crud/points.py`, `app/models/points.py`) -/

/-- Schema `PointTransactionCreate` (`app/schemas/points.py`): request body
for creating a ledger row.  `amount` is an `int` field. -/
structure PointTransactionCreate where
  student_id : Nat
  amount : Int
  transaction_type : String
  source_id : Option Nat := none
  source_description : Option String := none
  notes : Option String := none
deriving Repr, DecidableEq

/-- Table `point_transactions` (`app/models/points.py`): append-only ledger
row.  `amount` is `Column(Integer)`. -/
structure PointTransaction where
  student_id : Nat
  amount : Int
  transaction_type : String
  source_id : Option Nat
  source_description : Option String
  notes : Option String
  admin_id : Option Nat
deriving Repr, DecidableEq

/-- Table `student_points`: one running-balance row per student. -/
structure StudentPoints where
  student_id : Nat
  current_balance : Int
  total_earned : Int
  total_spent : Int
deriving Repr, DecidableEq

/-- The state of the points subsystem: the ledger table and the
running-balance table. -/
structure PointsState where
  transactions : List PointTransaction
  studentPoints : List StudentPoints
deriving Repr, DecidableEq

/-- `db.query(StudentPoints).filter(StudentPoints.student_id == student_id).first()` -/
def findStudentPoints (rows : List StudentPoints) (sid : Nat) : Option StudentPoints :=
  rows.find? (fun r => r.student_id == sid)

/-- `get_or_create_student_points` (`app/crud/points.py`): look the row up,
creating it with zero balances when absent. -/
def get_or_create_student_points (s : PointsState) (student_id : Nat) :
    StudentPoints × PointsState :=
  match findStudentPoints s.studentPoints student_id with
  | some sp => (sp, s)
  | none =>
      let sp : StudentPoints :=
        { student_id := student_id, current_balance := 0, total_earned := 0, total_spent := 0 }
      (sp, { s with studentPoints := s.studentPoints ++ [sp] })

/-- The balance mutation of `create_point_transaction`:
`current_balance += amount`, then `total_earned += amount` when positive
else `total_spent += abs(amount)`. -/
def applyAmount (sp : StudentPoints) (amount : Int) : StudentPoints :=
  { sp with
    current_balance := sp.current_balance + amount,
    total_earned := if amount > 0 then sp.total_earned + amount else sp.total_earned,
    total_spent := if amount > 0 then sp.total_spent else sp.total_spent + |amount| }

/-- Mutating the ORM object returned by `first()` updates the first row of
the table that matches the student id. -/
def updateFirstStudentPoints (rows : List StudentPoints) (sid : Nat)
    (f : StudentPoints → StudentPoints) : List StudentPoints :=
  match rows with
  | [] => []
  | r :: rest =>
      if r.student_id == sid then f r :: rest
      else r :: updateFirstStudentPoints rest sid f

/-- The `PointTransaction` row built by `create_point_transaction`. -/
def txOf (t : PointTransactionCreate) (admin_id : Option Nat) : PointTransaction :=
  { student_id := t.student_id, amount := t.amount,
    transaction_type := t.transaction_type, source_id := t.source_id,
    source_description := t.source_description, notes := t.notes,
    admin_id := admin_id }

/-- `create_point_transaction` (`app/crud/points.py` lines 94–123): append
the ledger row, get-or-create the balance row, and apply the amount to it. -/
def create_point_transaction (s : PointsState) (t : PointTransactionCreate)
    (admin_id : Option Nat := none) : PointsState :=
  let s1 : PointsState := { s with transactions := s.transactions ++ [txOf t admin_id] }
  let s2 := (get_or_create_student_points s1 t.student_id).2
  { s2 with
    studentPoints :=
      updateFirstStudentPoints s2.studentPoints t.student_id (fun sp => applyAmount sp t.amount) }

/-- `admin_adjust_points` (`app/crud/points.py` lines 126–142). -/
def admin_adjust_points (s : PointsState) (student_id : Nat) (amount : Int)
    (notes : String) (admin_id : Nat) : PointsState :=
  let transaction_type := if amount > 0 then "admin_award" else "admin_deduction"
  create_point_transaction s
    { student_id := student_id, amount := amount,
      transaction_type := transaction_type,
      source_description :=
        some (if amount > 0 then "Manual award by admin" else "Manual deduction by admin"),
      notes := some notes }
    (some admin_id)

/-- `award_assignment_points` (`app/crud/points.py` lines 145–162). -/
def award_assignment_points (s : PointsState) (student_id : Nat)
    (assignment_id : Nat) (points_earned : Int) (assignment_title : String) : PointsState :=
  create_point_transaction s
    { student_id := student_id, amount := points_earned,
      transaction_type := "assignment",
      source_id := some assignment_id,
      source_description := some ("Assignment: " ++ assignment_title),
      notes := some "Earned points for completing assignment" }
    none

/-- Sum of `PointTransaction.amount` over one student's ledger rows. -/
def ledgerSum (s : PointsState) (sid : Nat) : Int :=
  ((s.transactions.filter (fun t => t.student_id == sid)).map (fun t => t.amount)).sum

/-- The student's `current_balance`, zero when the row does not exist. -/
def balanceOf (s : PointsState) (sid : Nat) : Int :=
  match findStudentPoints s.studentPoints sid with
  | some sp => sp.current_balance
  | none => 0

/-- The ledger/balance consistency invariant. -/
def BalanceInv (s : PointsState) : Prop :=
  ∀ sid, ledgerSum s sid = balanceOf s sid

/-- The point-transaction operations reachable from grading and admin
adjustment; both route through `create_point_transaction`. -/
inductive PointsOp where
  | award (student_id assignment_id : Nat) (points_earned : Int) (assignment_title : String)
  | adjust (student_id : Nat) (amount : Int) (notes : String) (admin_id : Nat)
deriving Repr, DecidableEq

def PointsOp.apply (s : PointsState) : PointsOp → PointsState
  | .award sid aid pts title => award_assignment_points s sid aid pts title
  | .adjust sid amt notes admin => admin_adjust_points s sid amt notes admin

/-- The empty points subsystem: no ledger rows, no balance rows. -/
def PointsState.empty : PointsState := { transactions := [], studentPoints := [] }

/-- Run a sequence of point operations from the empty state. -/
def runPointsOps (ops : List PointsOp) : PointsState :=
  ops.foldl PointsOp.apply PointsState.empty

/-! Lemmas toward the balance invariant. -/

/-- Balance of a row list, zero when absent. -/
def rowsBalance (rows : List StudentPoints) (sid : Nat) : Int :=
  match findStudentPoints rows sid with
  | some sp => sp.current_balance
  | none => 0

/-- The table after `get_or_create_student_points` for `sid`. -/
def ensureRows (rows : List StudentPoints) (sid : Nat) : List StudentPoints :=
  match findStudentPoints rows sid with
  | some _ => rows
  | none =>
      rows ++ [{ student_id := sid, current_balance := 0, total_earned := 0, total_spent := 0 }]

/-! ## Assignment / term data model (`app/models/assignment.py`, `app/models/term.py`) -/

/-- `AssignmentStatus` enum (`app/enums.py`). -/
inductive AssignmentStatus where
  | not_started | in_progress | submitted | graded | overdue | excused
deriving Repr, DecidableEq

/-- `UserRole` enum (`app/enums.py`). -/
inductive UserRole where
  | admin | student
deriving Repr, DecidableEq

/-- A row of the `users` table, reduced to the columns the grading path
reads. -/
structure UserRow where
  id : Nat
  role : UserRole
deriving Repr, DecidableEq

/-- Table `assignment_templates`, reduced to the columns the grading and
recalculation paths read. -/
structure AssignmentTemplate where
  id : Nat
  name : String
  subject_id : Nat
  max_points : Int
deriving Repr, DecidableEq

/-- Table `student_assignments`. -/
structure StudentAssignment where
  id : Nat
  template_id : Nat
  student_id : Nat
  assigned_date : Int
  due_date : Option Int := none
  extended_due_date : Option Int := none
  status : AssignmentStatus := .not_started
  started_date : Option Int := none
  completed_date : Option Int := none
  submitted_date : Option Int := none
  points_earned : Option Rat := none
  percentage_grade : Option Rat := none
  letter_grade : Option String := none
  is_graded : Bool := false
  graded_date : Option Int := none
  graded_by : Option Nat := none
  teacher_feedback : Option String := none
  custom_max_points : Option Int := none
deriving Repr, DecidableEq

/-- Table `terms`, reduced to the columns the recalculation reads. -/
structure Term where
  id : Nat
  start_date : Int
  end_date : Int
  is_active : Bool
  name : String := ""
deriving Repr, DecidableEq

/-- Table `term_subjects`. -/
structure TermSubject where
  id : Nat
  term_id : Nat
  subject_id : Nat
  is_active : Bool := true
  weight : Rat := 1
  learning_goals : Option String := none
deriving Repr, DecidableEq

/-- Table `student_term_grades`; columns default as the model declares. -/
structure StudentTermGrade where
  student_id : Nat
  term_subject_id : Nat
  current_points_earned : Rat := 0
  current_points_possible : Rat := 0
  current_percentage : Option Rat := none
  current_letter_grade : Option String := none
  final_points_earned : Option Rat := none
  final_points_possible : Option Rat := none
  final_percentage : Option Rat := none
  final_letter_grade : Option String := none
  is_finalized : Bool := false
  finalized_date : Option Int := none
  finalized_by : Option Nat := none
  assignments_completed : Int := 0
  assignments_total : Int := 0
deriving Repr, DecidableEq

/-- `StudentTermGrade.calculate_current_grade` (`app/models/term.py` lines
198–208): derive `current_percentage` from the two totals. -/
def StudentTermGrade.calculate_current_grade (g : StudentTermGrade) : StudentTermGrade :=
  if g.current_points_possible > 0 then
    { g with
      current_percentage := some (g.current_points_earned / g.current_points_possible * 100) }
  else
    { g with current_percentage := none }

/-- `StudentTermGrade.finalize_grade` (`app/models/term.py` lines 210–218):
copy the current fields into the final fields and stamp the finalizer. -/
def StudentTermGrade.finalize_grade (g : StudentTermGrade) (finalizer_id : Nat)
    (today : Int) : StudentTermGrade :=
  { g with
    final_points_earned := some g.current_points_earned,
    final_points_possible := some g.current_points_possible,
    final_percentage := g.current_percentage,
    final_letter_grade := g.current_letter_grade,
    is_finalized := true,
    finalized_date := some today,
    finalized_by := some finalizer_id }

/-- `SystemSettings` table (`app/models/points.py`), reduced to the columns
`get_system_setting` reads. -/
structure SystemSettings where
  setting_key : String
  setting_value : String
  is_active : Bool
deriving Repr, DecidableEq

/-- `get_system_setting` (`app/crud/points.py` lines 37–44). -/
def get_system_setting (settings : List SystemSettings) (setting_key : String) :
    Option SystemSettings :=
  settings.find? (fun s => s.setting_key == setting_key && s.is_active)

/-- `is_points_system_enabled` (`app/crud/points.py` lines 47–52). -/
def is_points_system_enabled (settings : List SystemSettings) : Bool :=
  match get_system_setting settings "points_system_enabled" with
  | none => false
  | some setting => setting.setting_value.toLower == "true"

/-- The relational state the grading request touches. -/
structure World where
  users : List UserRow
  templates : List AssignmentTemplate
  assignments : List StudentAssignment
  terms : List Term
  termSubjects : List TermSubject
  studentTermGrades : List StudentTermGrade
  points : PointsState
  settings : List SystemSettings
deriving Repr, DecidableEq

def findTemplate (w : World) (tid : Nat) : Option AssignmentTemplate :=
  w.templates.find? (fun t => t.id == tid)

/-- `session.query(Term).filter(Term.is_active).first()` -/
def activeTerm (w : World) : Option Term :=
  w.terms.find? (fun t => t.is_active)

def findTermSubject (w : World) (termId subjectId : Nat) : Option TermSubject :=
  w.termSubjects.find? (fun ts => ts.term_id == termId && ts.subject_id == subjectId)

def findStudentTermGrade (rows : List StudentTermGrade) (sid tsid : Nat) :
    Option StudentTermGrade :=
  rows.find? (fun g => g.student_id == sid && g.term_subject_id == tsid)

def updateFirstStudentTermGrade (rows : List StudentTermGrade) (sid tsid : Nat)
    (f : StudentTermGrade → StudentTermGrade) : List StudentTermGrade :=
  match rows with
  | [] => []
  | g :: rest =>
      if g.student_id == sid && g.term_subject_id == tsid then f g :: rest
      else g :: updateFirstStudentTermGrade rest sid tsid f

/-- A fresh `StudentTermGrade(student_id=…, term_subject_id=…)` with the
model's column defaults. -/
def newStudentTermGrade (sid tsid : Nat) : StudentTermGrade :=
  { student_id := sid, term_subject_id := tsid }

/-- The find-or-create step of the recalculation: `session.add` appends the
fresh row when the lookup misses. -/
def ensureStudentTermGrade (rows : List StudentTermGrade) (sid tsid : Nat) :
    List StudentTermGrade :=
  match findStudentTermGrade rows sid tsid with
  | some _ => rows
  | none => rows ++ [newStudentTermGrade sid tsid]

/-- Python truthiness of the nullable float `points_earned`: `None` and
`0.0` are falsy. -/
def pyFalsyPoints : Option Rat → Bool
  | none => true
  | some p => p == 0

/-- Python truthiness of a nullable string: `None` and `""` are falsy. -/
def pyFalsyStr : Option String → Bool
  | none => true
  | some s => s.isEmpty

/-- The `max_points` property of `StudentAssignment`
(`app/models/assignment.py` lines 168–171): `custom_max_points or
template.max_points` — Python `or`, so a custom value of `0` (and `None`)
falls back to the template. -/
def pyMaxPoints (custom : Option Int) (templateMax : Int) : Int :=
  match custom with
  | some c => if c == 0 then templateMax else c
  | none => templateMax

/-- `StudentAssignment.calculate_percentage_grade`
(`app/models/assignment.py` lines 173–177), with the `max_points` property
value passed in: sets `percentage_grade` only when `points_earned` is
non-null and `max_points > 0`; otherwise the field is left as it was. -/
def StudentAssignment.calculate_percentage_grade (a : StudentAssignment)
    (maxPoints : Int) : StudentAssignment :=
  match a.points_earned with
  | some pe =>
      if maxPoints > 0 then
        { a with percentage_grade := some (pe / (maxPoints : Rat) * 100) }
      else a
  | none => a

/-- `StudentAssignment.update_status` (`app/models/assignment.py` lines
179–195). -/
def StudentAssignment.update_status (a : StudentAssignment) (today : Int) :
    StudentAssignment :=
  let effective_due_date :=
    match a.extended_due_date with
    | some d => some d
    | none => a.due_date
  if a.is_graded then { a with status := .graded }
  else if a.submitted_date.isSome then { a with status := .submitted }
  else if a.started_date.isSome then { a with status := .in_progress }
  else
    match effective_due_date with
    | some d => if today > d then { a with status := .overdue } else { a with status := .not_started }
    | none => { a with status := .not_started }

/-- The joined, filtered row set of the recalculation queries in
`update_term_grade` (`app/models/assignment.py` lines 239–258): this
student's assignments joined to their template, restricted to the given
subject and to `assigned_date` within the active term's range.  The inner
join drops rows whose template is missing. -/
def termAssignmentRows (w : World) (sid subjectId : Nat) (t : Term) :
    List StudentAssignment :=
  w.assignments.filter (fun r =>
    r.student_id == sid &&
    (match findTemplate w r.template_id with
     | some tpl => tpl.subject_id == subjectId
     | none => false) &&
    decide (t.start_date ≤ r.assigned_date) && decide (r.assigned_date ≤ t.end_date))

/-- SQL `SUM` over a nullable column: `NULL` values are ignored, and the
sum of no values is `NULL`. -/
def sqlSumRat (xs : List (Option Rat)) : Option Rat :=
  match xs.filterMap id with
  | [] => none
  | vs => some vs.sum

/-- SQL `COALESCE(custom_max_points, template.max_points)` for one joined
row (zero for the unreachable missing-template case the join excludes). -/
def coalesceMaxPoints (w : World) (r : StudentAssignment) : Int :=
  match r.custom_max_points with
  | some c => c
  | none =>
      match findTemplate w r.template_id with
      | some tpl => tpl.max_points
      | none => 0

/-- The `total_possible` query of `update_term_grade`
(`app/models/assignment.py` lines 260–282): sum of
`COALESCE(custom_max_points, template.max_points)` over the graded rows of
the term row set, `NULL` (empty) collapsing to `0` via `or 0`. -/
def totalPossible (w : World) (sid subjectId : Nat) (t : Term) : Int :=
  (((termAssignmentRows w sid subjectId t).filter (fun r => r.is_graded)).map
    (coalesceMaxPoints w)).sum

/-- The field rewrite the recalculation applies to the found
`StudentTermGrade` row (`app/models/assignment.py` lines 284–292): store
the four totals and re-derive `current_percentage`. -/
def recalcRowFn (w : World) (sid subjectId : Nat) (t : Term) (total_earned : Rat)
    (g : StudentTermGrade) : StudentTermGrade :=
  StudentTermGrade.calculate_current_grade
    { g with
      current_points_earned := total_earned,
      current_points_possible := ((totalPossible w sid subjectId t : Int) : Rat),
      assignments_completed :=
        (((termAssignmentRows w sid subjectId t).filter
          (fun r => r.is_graded)).length : Int),
      assignments_total := ((termAssignmentRows w sid subjectId t).length : Int) }

/-- `StudentAssignment.update_term_grade` (`app/models/assignment.py` lines
197–294).  Early-returns when the assignment is not graded or its
`points_earned` is Python-falsy, when no term is active, or when the
term-subject link is missing; the only runtime error is the attribute
access `self.template.subject_id` on a missing template (non-nullable
foreign key), surfaced as `Except.error`. -/
def StudentAssignment.update_term_grade (a : StudentAssignment) (w : World) :
    Except String World :=
  if !a.is_graded || pyFalsyPoints a.points_earned then .ok w
  else
    match activeTerm w with
    | none => .ok w
    | some active_term =>
        match findTemplate w a.template_id with
        | none => .error "AttributeError: template relationship is None"
        | some tpl =>
            match findTermSubject w active_term.id tpl.subject_id with
            | none => .ok w
            | some term_subject =>
                let table0 :=
                  ensureStudentTermGrade w.studentTermGrades a.student_id term_subject.id
                let rows := termAssignmentRows w a.student_id tpl.subject_id active_term
                let table1 :=
                  match sqlSumRat (rows.map (fun r => r.points_earned)) with
                  | none => table0
                  | some total_earned =>
                      updateFirstStudentTermGrade table0 a.student_id term_subject.id
                        (recalcRowFn w a.student_id tpl.subject_id active_term total_earned)
                .ok { w with studentTermGrades := table1 }

/-- The letter-grade table of the grading endpoint
(`app/routers/assignments.py` lines 621–646); note `D ≥ 65` and the absence
of a `D-` row in this call site. -/
def routerLetterGrade (percentage : Rat) : String :=
  if percentage ≥ 97 then "A+"
  else if percentage ≥ 93 then "A"
  else if percentage ≥ 90 then "A-"
  else if percentage ≥ 87 then "B+"
  else if percentage ≥ 83 then "B"
  else if percentage ≥ 80 then "B-"
  else if percentage ≥ 77 then "C+"
  else if percentage ≥ 73 then "C"
  else if percentage ≥ 70 then "C-"
  else if percentage ≥ 67 then "D+"
  else if percentage ≥ 65 then "D"
  else "F"

/-- `TermGradingService._calculate_letter_grade`
(`app/services/term_grading.py` lines 220–249). -/
def calculate_letter_grade (percentage : Option Rat) : Option String :=
  match percentage with
  | none => none
  | some p =>
      some (if p ≥ 97 then "A+"
        else if p ≥ 93 then "A"
        else if p ≥ 90 then "A-"
        else if p ≥ 87 then "B+"
        else if p ≥ 83 then "B"
        else if p ≥ 80 then "B-"
        else if p ≥ 77 then "C+"
        else if p ≥ 73 then "C"
        else if p ≥ 70 then "C-"
        else if p ≥ 67 then "D+"
        else if p ≥ 63 then "D"
        else if p ≥ 60 then "D-"
        else "F")

/-- `StudentAssignmentGrade` request schema (`app/schemas/assignment.py`):
`points_earned` is a required float with `ge=0`. -/
structure StudentAssignmentGrade where
  points_earned : Rat
  teacher_feedback : Option String := none
  letter_grade : Option String := none
deriving Repr, DecidableEq

/-- The HTTP error outcomes of the grading endpoint. -/
inductive ApiError where
  | forbidden (detail : String)
  | notFound (detail : String)
  | badRequest (detail : String)
  | internal (detail : String)
deriving Repr, DecidableEq

def updateFirstAssignment (rows : List StudentAssignment) (aid : Nat)
    (a' : StudentAssignment) : List StudentAssignment :=
  match rows with
  | [] => []
  | r :: rest =>
      if r.id == aid then a' :: rest
      else r :: updateFirstAssignment rest aid a'

/-- Truncation of the float `points_earned` to the `int` parameter of
`award_assignment_points` / the `Integer` ledger column (the schema
enforces `ge=0`, so floor and truncation agree). -/
def ratFloorToInt (q : Rat) : Int := q.floor

/-- The grade-field mutation of the grading endpoint
(`app/routers/assignments.py` lines 609–650): record the grade, recompute
the percentage, fill in the letter grade when the request left it blank,
and refresh the status. -/
def gradedRow (assignment : StudentAssignment) (grade_data : StudentAssignmentGrade)
    (grader_id : Nat) (today : Int) (max_points : Int) : StudentAssignment :=
  let a1 := { assignment with
    points_earned := some grade_data.points_earned,
    teacher_feedback := grade_data.teacher_feedback,
    letter_grade := grade_data.letter_grade,
    is_graded := true,
    graded_date := some today,
    graded_by := some grader_id }
  let a2 := a1.calculate_percentage_grade max_points
  let a3 :=
    if pyFalsyStr grade_data.letter_grade then
      match a2.percentage_grade with
      | some pct => { a2 with letter_grade := some (routerLetterGrade pct) }
      | none => { a2 with letter_grade := grade_data.letter_grade }
    else { a2 with letter_grade := grade_data.letter_grade }
  a3.update_status today

/-- `grade_student_assignment` (`app/routers/assignments.py` lines
564–690).  `award_raises` injects the simulated internal error of the
points-award step; the surrounding `try/except` swallows it, leaving the
points subsystem untouched.  Returns the graded assignment row and the
resulting state. -/
def grade_student_assignment (w : World) (assignment_id : Nat)
    (grade_data : StudentAssignmentGrade) (current_user : UserRow) (today : Int)
    (award_raises : Bool) : Except ApiError (StudentAssignment × World) :=
  if !(current_user.role == .admin) then
    .error (.forbidden "Only administrators can grade assignments")
  else
    match w.assignments.find? (fun r => r.id == assignment_id) with
    | none => .error (.notFound "Student assignment not found")
    | some assignment =>
        match w.users.find? (fun u =>
            u.id == assignment.student_id && u.role == .student) with
        | none => .error (.notFound "Student not found")
        | some _ =>
            match findTemplate w assignment.template_id with
            | none => .error (.internal "AttributeError: template relationship is None")
            | some tpl =>
                let max_points := pyMaxPoints assignment.custom_max_points tpl.max_points
                if grade_data.points_earned > (max_points : Rat) then
                  .error (.badRequest "Points earned cannot exceed maximum points")
                else
                  let a4 := gradedRow assignment grade_data current_user.id today max_points
                  let w1 := { w with
                    assignments := updateFirstAssignment w.assignments assignment_id a4 }
                  match a4.update_term_grade w1 with
                  | .error e => .error (.internal e)
                  | .ok w2 =>
                      let w3 :=
                        if is_points_system_enabled w2.settings then
                          if award_raises then w2
                          else
                            let pts := award_assignment_points w2.points a4.student_id a4.id
                              (ratFloorToInt grade_data.points_earned) tpl.name
                            { w2 with points := pts }
                        else w2
                      .ok (a4, w3)

/-! ## Term grading service (`app/services/term_grading.py`) -/

/-- The completed-assignment rows of one term period
(`app/services/term_grading.py` lines 58–73): any student, joined to the
template, with a non-null `completed_date` inside the term range. -/
def completedRowsInTerm (w : World) (t : Term) : List StudentAssignment :=
  w.assignments.filter (fun r =>
    (match findTemplate w r.template_id with
     | some _ => true
     | none => false) &&
    (match r.completed_date with
     | some d => decide (t.start_date ≤ d) && decide (d ≤ t.end_date)
     | none => false))

/-- Append-if-new, modelling insertion into the Python `set` in
first-occurrence order. -/
def insertUniq (xs : List Nat) (x : Nat) : List Nat :=
  if x ∈ xs then xs else xs ++ [x]

/-- The distinct subject ids of the completed rows
(`app/services/term_grading.py` lines 75–79); Python truthiness skips a
zero subject id. -/
def completedSubjectIds (w : World) (t : Term) : List Nat :=
  ((completedRowsInTerm w t).filterMap (fun r =>
    match findTemplate w r.template_id with
    | some tpl => if tpl.subject_id == 0 then none else some tpl.subject_id
    | none => none)).foldl insertUniq []

/-- Autoincrement id for a new `TermSubject` row (one more than the
largest existing id). -/
def nextTermSubjectId (rows : List TermSubject) : Nat :=
  (rows.foldl (fun m ts => max m ts.id) 0) + 1

/-- One subject's step of the auto-linking loop
(`app/services/term_grading.py` lines 82–104): create the `TermSubject`
link when it does not exist. -/
def autoLinkStep (t : Term) (acc : World) (subject_id : Nat) : World :=
  match findTermSubject acc t.id subject_id with
  | some _ => acc
  | none =>
      { acc with termSubjects := acc.termSubjects ++
          [{ id := nextTermSubjectId acc.termSubjects, term_id := t.id,
             subject_id := subject_id, is_active := true, weight := 1,
             learning_goals := some ("Automatically linked based on completed assignments in "
               ++ t.name) }] }

/-- One term's pass of `auto_link_subjects_to_terms`
(`app/services/term_grading.py` lines 57–106): create the missing
`TermSubject` links for the subjects with completed assignments in the
term period. -/
def autoLinkTerm (w : World) (t : Term) : World :=
  (completedSubjectIds w t).foldl (autoLinkStep t) w

/-- `TermGradingService.auto_link_subjects_to_terms`
(`app/services/term_grading.py` lines 39–109). -/
def auto_link_subjects_to_terms (w : World) (term_id : Option Nat) : World :=
  let terms : List Term :=
    match term_id with
    | some tid => w.terms.filter (fun t => t.id == tid)
    | none => w.terms
  terms.foldl autoLinkTerm w

/-- The graded-assignment rows of one (student, subject, term) triple as
the service queries them (`app/services/term_grading.py` lines 145–163):
joined to the template, `is_graded`, and `completed_date` inside the term
range. -/
def serviceGradedRows (w : World) (sid subjectId : Nat) (t : Term) :
    List StudentAssignment :=
  w.assignments.filter (fun r =>
    r.student_id == sid &&
    (match findTemplate w r.template_id with
     | some tpl => tpl.subject_id == subjectId
     | none => false) &&
    r.is_graded &&
    (match r.completed_date with
     | some d => decide (t.start_date ≤ d) && decide (d ≤ t.end_date)
     | none => false))

/-- The field rewrite of the service's per-(student, subject) recompute
(`app/services/term_grading.py` lines 168–212): totals over the graded
rows (`points_earned or 0`; the `max_points` property), the derived
percentage, its letter grade, and the counts. -/
def serviceRowFn (w : World) (sid subjectId : Nat) (t : Term)
    (g : StudentTermGrade) : StudentTermGrade :=
  let rows := serviceGradedRows w sid subjectId t
  let total_points_earned : Rat :=
    (rows.map (fun r => (r.points_earned).getD 0)).sum
  let total_points_possible : Int :=
    (rows.map (fun r =>
      pyMaxPoints r.custom_max_points
        (match findTemplate w r.template_id with
         | some tpl => tpl.max_points
         | none => 0))).sum
  let current_percentage : Option Rat :=
    if total_points_possible > 0 then
      some (total_points_earned / ((total_points_possible : Int) : Rat) * 100)
    else none
  { g with
    current_points_earned := total_points_earned,
    current_points_possible := ((total_points_possible : Int) : Rat),
    current_percentage := current_percentage,
    current_letter_grade := calculate_letter_grade current_percentage,
    assignments_completed := (rows.length : Int),
    assignments_total := (rows.length : Int) }

/-- One (student, term-subject) step of the service loop: skip when no
graded rows exist, else find-or-create the `StudentTermGrade` row and
rewrite it. -/
def serviceProcessPair (t : Term) (w : World) (sid : Nat) (ts : TermSubject) : World :=
  match serviceGradedRows w sid ts.subject_id t with
  | [] => w
  | _ =>
      let table0 := ensureStudentTermGrade w.studentTermGrades sid ts.id
      let table1 := updateFirstStudentTermGrade table0 sid ts.id
        (serviceRowFn w sid ts.subject_id t)
      { w with studentTermGrades := table1 }

/-- `TermGradingService.calculate_student_term_grades`
(`app/services/term_grading.py` lines 111–217): auto-link, then recompute
every (student, term subject) pair of the term; a missing term returns
after the auto-link only (the error dict). -/
def calculate_student_term_grades (w : World) (term_id : Nat)
    (student_id : Option Nat) : World :=
  let w1 := auto_link_subjects_to_terms w (some term_id)
  match w1.terms.find? (fun t => t.id == term_id) with
  | none => w1
  | some term =>
      let term_subjects := w1.termSubjects.filter (fun ts => ts.term_id == term_id)
      let students := (w1.users.filter (fun u => u.role == .student)).filter (fun u =>
        match student_id with
        | some sid => u.id == sid
        | none => true)
      students.foldl (fun acc student =>
        term_subjects.foldl (fun acc2 ts => serviceProcessPair term acc2 student.id ts)
          acc) w1

/-! ## Attendance aggregation (`app/utils/attendance.py`) -/

/-- `AttendanceStatus` enum (`app/enums.py`). -/
inductive AttendanceStatus where
  | present | absent | late | excused
deriving Repr, DecidableEq

/-- Table `attendance_records`, reduced to the columns the rate reads. -/
structure AttendanceRecord where
  student_id : Nat
  date : Int
  status : AttendanceStatus
deriving Repr, DecidableEq

/-- `calculate_attendance_rate` (`app/utils/attendance.py` lines 86–115):
`(present + late + excused) / required_days_of_instruction * 100`, with the
configured requirement as the denominator, and `0` when the requirement is
not positive. -/
def calculate_attendance_rate (attendance_records : List AttendanceRecord)
    (required_days_of_instruction : Int) : Rat :=
  let present_days :=
    (attendance_records.filter (fun r => r.status == .present)).length
  let late_days :=
    (attendance_records.filter (fun r => r.status == .late)).length
  let excused_days :=
    (attendance_records.filter (fun r => r.status == .excused)).length
  let acceptable_days : Int := present_days + late_days + excused_days
  if required_days_of_instruction > 0 then
    (acceptable_days : Rat) / (required_days_of_instruction : Rat) * 100
  else 0

/-- Number of attendance records with the given status. -/
def countStatus (attendance_records : List AttendanceRecord) (st : AttendanceStatus) : Nat :=
  (attendance_records.filter (fun r => r.status == st)).length

/-- 90 attendance records, all `present`. -/
def presentRecords90 : List AttendanceRecord :=
  (List.range 90).map (fun i => { student_id := 1, date := (i : Int), status := .present })

/-- 170 `present`, 5 `absent`, 5 `late` records. -/
def mixedRecords180 : List AttendanceRecord :=
  (List.range 170).map (fun i =>
      { student_id := 1, date := (i : Int), status := AttendanceStatus.present }) ++
    (List.range 5).map (fun i =>
      { student_id := 1, date := (170 + i : Int), status := AttendanceStatus.absent }) ++
    (List.range 5).map (fun i =>
      { student_id := 1, date := (175 + i : Int), status := AttendanceStatus.late })

/-- A concrete graded assignment with zero points earned. -/
def zeroPointAssignment : StudentAssignment :=
  { id := 7, template_id := 1, student_id := 1, assigned_date := 10,
    points_earned := some 0, is_graded := true }

/-- A small concrete state: one active term, a linked subject, one
template, and an existing `StudentTermGrade` row. -/
def sampleWorld : World :=
  { users := [{ id := 1, role := .student }, { id := 2, role := .admin }],
    templates := [{ id := 1, name := "Worksheet", subject_id := 1, max_points := 100 }],
    assignments := [zeroPointAssignment],
    terms := [{ id := 1, start_date := 0, end_date := 100, is_active := true }],
    termSubjects := [{ id := 1, term_id := 1, subject_id := 1 }],
    studentTermGrades := [newStudentTermGrade 1 1],
    points := PointsState.empty,
    settings := [] }

/-- The finalization-owned columns of a `StudentTermGrade` row. -/
structure FinalGradeView where
  final_points_earned : Option Rat
  final_points_possible : Option Rat
  final_percentage : Option Rat
  final_letter_grade : Option String
  is_finalized : Bool
  finalized_date : Option Int
  finalized_by : Option Nat
deriving Repr, DecidableEq

def StudentTermGrade.finalView (g : StudentTermGrade) : FinalGradeView :=
  { final_points_earned := g.final_points_earned,
    final_points_possible := g.final_points_possible,
    final_percentage := g.final_percentage,
    final_letter_grade := g.final_letter_grade,
    is_finalized := g.is_finalized,
    finalized_date := g.finalized_date,
    finalized_by := g.finalized_by }

/-- The row at a key exists and carries the given finalization view. -/
def FinalViewAt (stgs : List StudentTermGrade) (sid tsid : Nat)
    (v : FinalGradeView) : Prop :=
  ∃ g, findStudentTermGrade stgs sid tsid = some g ∧ g.finalView = v

/-! Toward idempotence of the service recomputation: the per-pair step at
the level of the `StudentTermGrade` table. -/

/-- `serviceProcessPair` as a function of the `StudentTermGrade` table,
with the data tables fixed to `base`. -/
def servicePairStep (base : World) (t : Term) (stgs : List StudentTermGrade)
    (sid : Nat) (ts : TermSubject) : List StudentTermGrade :=
  match serviceGradedRows base sid ts.subject_id t with
  | [] => stgs
  | _ =>
      updateFirstStudentTermGrade (ensureStudentTermGrade stgs sid ts.id) sid ts.id
        (serviceRowFn base sid ts.subject_id t)

/-- The (student, term-subject) pairs the service loop visits, in
visitation order. -/
def pairsOf (students : List UserRow) (term_subjects : List TermSubject) :
    List (UserRow × TermSubject) :=
  students.foldr (fun s acc => term_subjects.map (fun ts => (s, ts)) ++ acc) []

/-- The pair's row is present and already carries the recomputed values
(vacuous when the pair has no graded rows). -/
def PairSettled (base : World) (t : Term) (stgs : List StudentTermGrade)
    (p : UserRow × TermSubject) : Prop :=
  serviceGradedRows base p.1.id p.2.subject_id t = [] ∨
  ∃ g, findStudentTermGrade stgs p.1.id p.2.id = some g ∧
    serviceRowFn base p.1.id p.2.subject_id t g = g

/-- The key a pair writes under. -/
def pairKey (p : UserRow × TermSubject) : Nat × Nat := (p.1.id, p.2.id)

/-- A graded assignment worth 50 points, assigned inside the sample term. -/
def gradedAssignment50 : StudentAssignment :=
  { id := 7, template_id := 1, student_id := 1, assigned_date := 10,
    points_earned := some 50, is_graded := true }

/-- A term grade row finalized by admin 2 on day 40. -/
def finalizedRow : StudentTermGrade :=
  StudentTermGrade.finalize_grade
    { newStudentTermGrade 1 1 with
      current_points_earned := 50, current_points_possible := 100,
      current_percentage := some 50, current_letter_grade := some "F" } 2 40

/-- The sample state with the finalized row and the graded assignment. -/
def finalizedWorld : World :=
  { sampleWorld with
    assignments := [gradedAssignment50],
    studentTermGrades := [finalizedRow] }

/-- Scenario 4 state: two terms exist, neither is active. -/
def twoInactiveTermsWorld : World :=
  { users := [{ id := 1, role := .student }, { id := 2, role := .admin }],
    templates := [{ id := 1, name := "Worksheet", subject_id := 1, max_points := 100 }],
    assignments := [{ id := 7, template_id := 1, student_id := 1, assigned_date := 10 }],
    terms := [{ id := 1, start_date := 0, end_date := 50, is_active := false },
              { id := 2, start_date := 51, end_date := 100, is_active := false }],
    termSubjects := [{ id := 1, term_id := 1, subject_id := 1 }],
    studentTermGrades := [],
    points := PointsState.empty,
    settings := [] }

/-- A state with the points system enabled and one ungraded assignment. -/
def pointsEnabledWorld : World :=
  { users := [{ id := 1, role := .student }, { id := 2, role := .admin }],
    templates := [{ id := 1, name := "Worksheet", subject_id := 1, max_points := 100 }],
    assignments := [{ id := 7, template_id := 1, student_id := 1, assigned_date := 10 }],
    terms := [],
    termSubjects := [],
    studentTermGrades := [],
    points := PointsState.empty,
    settings := [{ setting_key := "points_system_enabled", setting_value := "true",
                   is_active := true }] }

/-- The claim's fixed threshold table, ordered from highest cutoff down: a
percentage maps to the first row whose cutoff it meets, else "F".  (The
code's `D` boundary is 63 in `_calculate_letter_grade`.) -/
def letterGradeTable : List (Rat × String) :=
  [(97, "A+"), (93, "A"), (90, "A-"), (87, "B+"), (83, "B"), (80, "B-"),
   (77, "C+"), (73, "C"), (70, "C-"), (67, "D+"), (63, "D"), (60, "D-")]

/-- The letter grade the claim's table assigns to a percentage. -/
def tableLetterGrade (p : Rat) : String :=
  match letterGradeTable.find? (fun row => decide (row.1 ≤ p)) with
  | some row => row.2
  | none => "F"

/-- A student assignment holding 85 earned points. -/
def assignment85 : StudentAssignment :=
  { id := 7, template_id := 1, student_id := 1, assigned_date := 10,
    points_earned := some 85 }

/-- The graded subset of the term row set. -/
def gradedTermRows (w : World) (sid subjectId : Nat) (t : Term) :
    List StudentAssignment :=
  (termAssignmentRows w sid subjectId t).filter (fun r => r.is_graded)

/-- The earned-points total the claim describes: sum of `points_earned`
over exactly the graded rows of the student and subject inside the term
range. -/
def claimEarnedSum (w : World) (sid subjectId : Nat) (t : Term) : Rat :=
  ((gradedTermRows w sid subjectId t).filterMap (fun r => r.points_earned)).sum

/-- The possible-points total the claim describes: sum of
`custom_max_points` if set, else the template's `max_points`, over the
graded rows. -/
def claimPossibleSum (w : World) (sid subjectId : Nat) (t : Term) : Int :=
  ((gradedTermRows w sid subjectId t).map (coalesceMaxPoints w)).sum

/-- The earned-points total the code computes: SQL `SUM(points_earned)`
over ALL rows of the student and subject inside the term range, graded or
not (`NULL` values ignored). -/
def codeEarnedSum (w : World) (sid subjectId : Nat) (t : Term) : Rat :=
  ((termAssignmentRows w sid subjectId t).filterMap (fun r => r.points_earned)).sum

/-- C3 as the claim states it: on the recalculation path, the written
totals are the sums over exactly the graded rows in the term range. -/
def RecalcSetsGradedTotals (w : World) (a : StudentAssignment) : Prop :=
  ∀ t tpl ts, activeTerm w = some t →
    findTemplate w a.template_id = some tpl →
    findTermSubject w t.id tpl.subject_id = some ts →
    ∃ w' g, a.update_term_grade w = .ok w' ∧
      findStudentTermGrade w'.studentTermGrades a.student_id ts.id = some g ∧
      g.current_points_earned = claimEarnedSum w a.student_id tpl.subject_id t ∧
      g.current_points_possible =
        ((claimPossibleSum w a.student_id tpl.subject_id t : Int) : Rat)

/-- The in-range but ungraded row carrying non-null `points_earned`. -/
def ungradedRowWithPoints : StudentAssignment :=
  { id := 8, template_id := 1, student_id := 1, assigned_date := 20,
    points_earned := some 10, is_graded := false }

/-- Counterexample state for C3: the student has one graded in-range row
worth 50 points and one ungraded in-range row carrying 10 points. -/
def mixedGradingWorld : World :=
  { users := [{ id := 1, role := .student }, { id := 2, role := .admin }],
    templates := [{ id := 1, name := "Worksheet", subject_id := 1, max_points := 100 }],
    assignments := [gradedAssignment50, ungradedRowWithPoints],
    terms := [{ id := 1, start_date := 0, end_date := 100, is_active := true }],
    termSubjects := [{ id := 1, term_id := 1, subject_id := 1 }],
    studentTermGrades := [],
    points := PointsState.empty,
    settings := [] }

/-- The active term of the counterexample state. -/
def cexTerm : Term := { id := 1, start_date := 0, end_date := 100, is_active := true }

/-- The template of the counterexample state. -/
def cexTemplate : AssignmentTemplate :=
  { id := 1, name := "Worksheet", subject_id := 1, max_points := 100 }

/-- The term-subject link of the counterexample state. -/
def cexTermSubject : TermSubject := { id := 1, term_id := 1, subject_id := 1 }

/-- One grading event as it reaches `calculate_percentage_grade`: the
endpoint stores the submitted points and recomputes the percentage
(`app/routers/assignments.py` lines 610–618). -/
def applyGradeEvent (a : StudentAssignment) (max_points : Int) (p : Rat) :
    StudentAssignment :=
  StudentAssignment.calculate_percentage_grade
    { a with points_earned := some p, is_graded := true } max_points

/-- A sequence of grading events against a fixed `max_points`. -/
def runGradeEvents (a : StudentAssignment) (max_points : Int) (ps : List Rat) :
    StudentAssignment :=
  ps.foldl (fun acc p => applyGradeEvent acc max_points p) a

/-- The C9 invariant on one assignment row. -/
def PercentageInv (a : StudentAssignment) (max_points : Int) : Prop :=
  (a.percentage_grade.isSome ↔ a.points_earned.isSome ∧ 0 < max_points) ∧
  (∀ v, a.percentage_grade = some v →
    ∃ p, a.points_earned = some p ∧ v = p / (max_points : Rat) * 100)

/-- A fresh `StudentAssignment` as created by assigning a template: no
points, no derived percentage. -/
def freshAssignment (id template_id student_id : Nat) (assigned_date : Int) :
    StudentAssignment :=
  { id := id, template_id := template_id, student_id := student_id,
    assigned_date := assigned_date }

theorem rowsBalance_nil (sid : Nat) : rowsBalance [] sid = 0 := rfl

theorem rowsBalance_cons (r : StudentPoints) (rest : List StudentPoints) (sid : Nat) :
    rowsBalance (r :: rest) sid =
      if r.student_id = sid then r.current_balance else rowsBalance rest sid := by
  unfold rowsBalance findStudentPoints
  by_cases h : r.student_id = sid
  · rw [List.find?_cons_of_pos _ (by simpa using h)]
    simp [h]
  · rw [List.find?_cons_of_neg _ (by simpa using h)]
    simp [h]

theorem findStudentPoints_append (rows rows' : List StudentPoints) (sid : Nat) :
    findStudentPoints (rows ++ rows') sid =
      (findStudentPoints rows sid).or (findStudentPoints rows' sid) := by
  simp [findStudentPoints, List.find?_append]

theorem get_or_create_studentPoints_eq (s : PointsState) (sid : Nat) :
    (get_or_create_student_points s sid).2.studentPoints = ensureRows s.studentPoints sid := by
  unfold get_or_create_student_points ensureRows
  cases h : findStudentPoints s.studentPoints sid <;> simp [h]

theorem get_or_create_transactions_eq (s : PointsState) (sid : Nat) :
    (get_or_create_student_points s sid).2.transactions = s.transactions := by
  unfold get_or_create_student_points
  cases h : findStudentPoints s.studentPoints sid <;> simp [h]

/-- Creating the missing balance row does not change any balance. -/
theorem rowsBalance_ensure (rows : List StudentPoints) (sid sid' : Nat) :
    rowsBalance (ensureRows rows sid) sid' = rowsBalance rows sid' := by
  unfold ensureRows
  cases h : findStudentPoints rows sid
  · induction rows with
    | nil =>
        simp only [List.nil_append]
        rw [rowsBalance_cons]
        by_cases hs : sid = sid' <;> simp [hs, rowsBalance_nil]
    | cons r rest ih =>
        have hr : ¬ r.student_id = sid := by
          intro hc
          unfold findStudentPoints at h
          rw [List.find?_cons_of_pos _ (by simpa using hc)] at h
          cases h
        have hrest : findStudentPoints rest sid = none := by
          unfold findStudentPoints at h ⊢
          rwa [List.find?_cons_of_neg _ (by simpa using hr)] at h
        simp only [List.cons_append]
        rw [rowsBalance_cons, rowsBalance_cons, ih hrest]
  · rfl

/-- After ensuring the row exists, the row for `sid` is found. -/
theorem findStudentPoints_ensure_isSome (rows : List StudentPoints) (sid : Nat) :
    (findStudentPoints (ensureRows rows sid) sid).isSome := by
  unfold ensureRows
  cases h : findStudentPoints rows sid
  · rw [findStudentPoints_append, h]
    simp [findStudentPoints, List.find?]
  · simp [h]

theorem applyAmount_student_id (sp : StudentPoints) (amt : Int) :
    (applyAmount sp amt).student_id = sp.student_id := rfl

/-- Bumping the first matching row changes that student's balance by the
amount and no other student's balance, provided the row exists. -/
theorem rowsBalance_update (rows : List StudentPoints) (sid sid' : Nat) (amt : Int)
    (hex : (findStudentPoints rows sid).isSome) :
    rowsBalance (updateFirstStudentPoints rows sid (fun sp => applyAmount sp amt)) sid' =
      rowsBalance rows sid' + (if sid' = sid then amt else 0) := by
  induction rows with
  | nil => simp [findStudentPoints] at hex
  | cons r rest ih =>
      unfold updateFirstStudentPoints
      by_cases hr : r.student_id = sid
      · simp only [hr, beq_self_eq_true, if_true]
        rw [rowsBalance_cons, rowsBalance_cons]
        rw [applyAmount_student_id]
        by_cases hr' : r.student_id = sid'
        · have hss : sid' = sid := by rw [← hr', hr]
          simp [hr', hss, applyAmount]
        · have hss : ¬ sid' = sid := by
            intro hc; exact hr' (by rw [hr, hc])
          simp [hr', hss]
      · rw [if_neg (by simpa using hr)]
        have hex' : (findStudentPoints rest sid).isSome := by
          unfold findStudentPoints at hex ⊢
          rwa [List.find?_cons_of_neg _ (by simpa using hr)] at hex
        rw [rowsBalance_cons, rowsBalance_cons]
        by_cases hr' : r.student_id = sid'
        · have hss : ¬ sid' = sid := by
            intro hc; exact hr (by rw [hr', hc])
          simp [hr', hss]
        · simp only [hr', if_false]
          exact ih hex'

theorem create_transactions_eq (s : PointsState) (t : PointTransactionCreate)
    (a : Option Nat) :
    (create_point_transaction s t a).transactions = s.transactions ++ [txOf t a] := by
  unfold create_point_transaction
  dsimp only
  rw [get_or_create_transactions_eq]

theorem create_studentPoints_eq (s : PointsState) (t : PointTransactionCreate)
    (a : Option Nat) :
    (create_point_transaction s t a).studentPoints =
      updateFirstStudentPoints (ensureRows s.studentPoints t.student_id) t.student_id
        (fun sp => applyAmount sp t.amount) := by
  unfold create_point_transaction
  dsimp only
  rw [get_or_create_studentPoints_eq]

theorem ledgerSum_create (s : PointsState) (t : PointTransactionCreate)
    (a : Option Nat) (sid : Nat) :
    ledgerSum (create_point_transaction s t a) sid =
      ledgerSum s sid + (if t.student_id = sid then t.amount else 0) := by
  unfold ledgerSum
  rw [create_transactions_eq, List.filter_append, List.map_append, List.sum_append]
  by_cases h : t.student_id = sid <;> simp [h, txOf]

theorem balanceOf_create (s : PointsState) (t : PointTransactionCreate)
    (a : Option Nat) (sid : Nat) :
    balanceOf (create_point_transaction s t a) sid =
      balanceOf s sid + (if sid = t.student_id then t.amount else 0) := by
  have hb : ∀ s' : PointsState, balanceOf s' sid = rowsBalance s'.studentPoints sid :=
    fun _ => rfl
  rw [hb, hb, create_studentPoints_eq]
  rw [rowsBalance_update _ _ _ _ (findStudentPoints_ensure_isSome _ _)]
  rw [rowsBalance_ensure]

/-- `create_point_transaction` preserves the balance invariant. -/
theorem balanceInv_create (s : PointsState) (t : PointTransactionCreate)
    (a : Option Nat) (h : BalanceInv s) :
    BalanceInv (create_point_transaction s t a) := by
  intro sid
  rw [ledgerSum_create, balanceOf_create, h sid]
  by_cases hs : t.student_id = sid
  · simp [hs]
  · have : ¬ sid = t.student_id := fun hc => hs hc.symm
    simp [hs, this]

theorem balanceInv_apply (s : PointsState) (op : PointsOp) (h : BalanceInv s) :
    BalanceInv (op.apply s) := by
  cases op with
  | award sid aid pts title =>
      exact balanceInv_create _ _ _ h
  | adjust sid amt notes admin =>
      exact balanceInv_create _ _ _ h

theorem balanceInv_empty : BalanceInv PointsState.empty := by
  intro sid; rfl

theorem balanceInv_foldl (ops : List PointsOp) (s : PointsState) (h : BalanceInv s) :
    BalanceInv (ops.foldl PointsOp.apply s) := by
  induction ops generalizing s with
  | nil => exact h
  | cons op rest ih => exact ih _ (balanceInv_apply _ _ h)

/-- C1: starting from no `StudentPoints` row, after any sequence of
assignment awards and admin adjustments (each routed through
`create_point_transaction`), the sum of `PointTransaction.amount` over a
student's ledger rows equals that student's `current_balance`. -/
theorem points_ledger_balance_invariant (ops : List PointsOp) (sid : Nat) :
    ledgerSum (runPointsOps ops) sid = balanceOf (runPointsOps ops) sid :=
  balanceInv_foldl ops PointsState.empty balanceInv_empty sid

/-- C7: for every record list and every positive configured requirement,
the attendance rate is `(present + late + excused) / required * 100`, with
the configured requirement as the denominator regardless of how many
records exist in the range. -/
theorem attendance_rate_uses_required_denominator
    (attendance_records : List AttendanceRecord)
    (required_days_of_instruction : Int) (h : 0 < required_days_of_instruction) :
    calculate_attendance_rate attendance_records required_days_of_instruction =
      (((countStatus attendance_records .present +
         countStatus attendance_records .late +
         countStatus attendance_records .excused : Nat) : Rat) /
        (required_days_of_instruction : Rat)) * 100 := by
  unfold calculate_attendance_rate countStatus
  rw [if_pos h]
  push_cast
  ring

set_option maxRecDepth 4000 in
/-- Witness for C7: the two spec scenarios.  90 present records against a
requirement of 180 give 50.0 (not 100.0), and 170 present + 5 absent +
5 late give (170+5)/180*100. -/
theorem attendance_rate_witness :
    calculate_attendance_rate presentRecords90 180 =
      (((countStatus presentRecords90 .present + countStatus presentRecords90 .late +
         countStatus presentRecords90 .excused : Nat) : Rat) / (180 : Rat)) * 100 ∧
    calculate_attendance_rate presentRecords90 180 = 50 ∧
    calculate_attendance_rate mixedRecords180 180 = (170 + 5 : Rat) / 180 * 100 := by
  have h1 := attendance_rate_uses_required_denominator presentRecords90 180 (by norm_num)
  have h2 := attendance_rate_uses_required_denominator mixedRecords180 180 (by norm_num)
  have c1 : countStatus presentRecords90 .present = 90 := by decide
  have c2 : countStatus presentRecords90 .late = 0 := by decide
  have c3 : countStatus presentRecords90 .excused = 0 := by decide
  have d1 : countStatus mixedRecords180 .present = 170 := by decide
  have d2 : countStatus mixedRecords180 .late = 5 := by decide
  have d3 : countStatus mixedRecords180 .excused = 0 := by decide
  refine ⟨h1, ?_, ?_⟩
  · rw [h1, c1, c2, c3]; norm_num
  · rw [h2, d1, d2, d3]; norm_num

/-- C10: when a grading event carries `points_earned` of `0` or `NULL`,
`update_term_grade` early-returns before touching any `Term`,
`TermSubject` or `StudentTermGrade` row (Python truthiness:
`not self.points_earned`), leaving the whole state unchanged. -/
theorem zero_or_null_points_skip_recalculation (w : World) (a : StudentAssignment)
    (h : a.points_earned = none ∨ a.points_earned = some 0) :
    a.update_term_grade w = .ok w := by
  unfold StudentAssignment.update_term_grade
  have hf : pyFalsyPoints a.points_earned = true := by
    rcases h with h | h <;> simp [pyFalsyPoints, h]
  rw [hf]
  simp

/-- Witness for C10: the zero-point graded assignment leaves the sample
state untouched. -/
theorem zero_points_skip_witness :
    zeroPointAssignment.update_term_grade sampleWorld = .ok sampleWorld :=
  zero_or_null_points_skip_recalculation sampleWorld zeroPointAssignment (Or.inr rfl)

/-! Lemmas about the `StudentTermGrade` table operations, shared by the
recalculation claims. -/

theorem findStudentTermGrade_cons (g : StudentTermGrade) (rest : List StudentTermGrade)
    (sid tsid : Nat) :
    findStudentTermGrade (g :: rest) sid tsid =
      if g.student_id = sid ∧ g.term_subject_id = tsid then some g
      else findStudentTermGrade rest sid tsid := by
  unfold findStudentTermGrade
  by_cases h : g.student_id = sid ∧ g.term_subject_id = tsid
  · rw [List.find?_cons_of_pos _ (by simp [h.1, h.2])]
    simp [h]
  · rw [List.find?_cons_of_neg _ (by simpa [and_comm, Decidable.not_and_iff_or_not] using h)]
    simp [h]

theorem findStudentTermGrade_append (rows rows' : List StudentTermGrade) (sid tsid : Nat) :
    findStudentTermGrade (rows ++ rows') sid tsid =
      (findStudentTermGrade rows sid tsid).or (findStudentTermGrade rows' sid tsid) := by
  simp [findStudentTermGrade, List.find?_append]

/-- When the looked-up row already exists, the find-or-create step finds it
unchanged. -/
theorem findStudentTermGrade_ensure_of_found (rows : List StudentTermGrade)
    (sid tsid sid' tsid' : Nat) (g : StudentTermGrade)
    (hg : findStudentTermGrade rows sid' tsid' = some g) :
    findStudentTermGrade (ensureStudentTermGrade rows sid tsid) sid' tsid' = some g := by
  unfold ensureStudentTermGrade
  cases h : findStudentTermGrade rows sid tsid
  · rw [findStudentTermGrade_append, hg]
    rfl
  · exact hg

/-- The find-or-create step makes the targeted row findable. -/
theorem findStudentTermGrade_ensure_isSome (rows : List StudentTermGrade) (sid tsid : Nat) :
    (findStudentTermGrade (ensureStudentTermGrade rows sid tsid) sid tsid).isSome := by
  unfold ensureStudentTermGrade
  cases h : findStudentTermGrade rows sid tsid
  · rw [findStudentTermGrade_append, h]
    simp [findStudentTermGrade, List.find?, newStudentTermGrade]
  · simp [h]

/-- Updating the first row matching a key rewrites exactly the row the
matching lookup returns, provided the update preserves the key columns. -/
theorem findStudentTermGrade_updateFirst_same (rows : List StudentTermGrade)
    (sid tsid : Nat) (f : StudentTermGrade → StudentTermGrade)
    (hkey : ∀ g, (f g).student_id = g.student_id ∧ (f g).term_subject_id = g.term_subject_id) :
    findStudentTermGrade (updateFirstStudentTermGrade rows sid tsid f) sid tsid =
      (findStudentTermGrade rows sid tsid).map f := by
  induction rows with
  | nil => rfl
  | cons g rest ih =>
      unfold updateFirstStudentTermGrade
      by_cases h : g.student_id = sid ∧ g.term_subject_id = tsid
      · rw [if_pos (by simp [h.1, h.2])]
        rw [findStudentTermGrade_cons, findStudentTermGrade_cons]
        rw [if_pos ⟨(hkey g).1.trans h.1, (hkey g).2.trans h.2⟩, if_pos h]
        rfl
      · rw [if_neg (by simpa [and_comm, Decidable.not_and_iff_or_not] using h)]
        rw [findStudentTermGrade_cons, findStudentTermGrade_cons]
        rw [if_neg h, if_neg h, ih]

/-- Updating the first row matching one key leaves lookups at any other
key unchanged, provided the update preserves the key columns. -/
theorem findStudentTermGrade_updateFirst_other (rows : List StudentTermGrade)
    (sid tsid sid' tsid' : Nat) (f : StudentTermGrade → StudentTermGrade)
    (hkey : ∀ g, (f g).student_id = g.student_id ∧ (f g).term_subject_id = g.term_subject_id)
    (hne : ¬(sid' = sid ∧ tsid' = tsid)) :
    findStudentTermGrade (updateFirstStudentTermGrade rows sid tsid f) sid' tsid' =
      findStudentTermGrade rows sid' tsid' := by
  induction rows with
  | nil => rfl
  | cons g rest ih =>
      unfold updateFirstStudentTermGrade
      by_cases h : g.student_id = sid ∧ g.term_subject_id = tsid
      · rw [if_pos (by simp [h.1, h.2])]
        rw [findStudentTermGrade_cons, findStudentTermGrade_cons]
        have h1 : ¬((f g).student_id = sid' ∧ (f g).term_subject_id = tsid') := by
          rw [(hkey g).1, (hkey g).2]
          intro hc
          exact hne ⟨hc.1.symm.trans h.1, hc.2.symm.trans h.2⟩
        have h2 : ¬(g.student_id = sid' ∧ g.term_subject_id = tsid') := by
          intro hc
          exact hne ⟨hc.1.symm.trans h.1, hc.2.symm.trans h.2⟩
        rw [if_neg h1, if_neg h2]
      · rw [if_neg (by simpa [and_comm, Decidable.not_and_iff_or_not] using h)]
        rw [findStudentTermGrade_cons, findStudentTermGrade_cons, ih]

theorem calculate_current_grade_finalView (g : StudentTermGrade) :
    g.calculate_current_grade.finalView = g.finalView := by
  unfold StudentTermGrade.calculate_current_grade
  split <;> rfl

theorem calculate_current_grade_keys (g : StudentTermGrade) :
    g.calculate_current_grade.student_id = g.student_id ∧
      g.calculate_current_grade.term_subject_id = g.term_subject_id := by
  unfold StudentTermGrade.calculate_current_grade
  split <;> exact ⟨rfl, rfl⟩

theorem recalcRowFn_keys (w : World) (sid subjectId : Nat) (t : Term) (e : Rat)
    (g : StudentTermGrade) :
    (recalcRowFn w sid subjectId t e g).student_id = g.student_id ∧
      (recalcRowFn w sid subjectId t e g).term_subject_id = g.term_subject_id :=
  ⟨(calculate_current_grade_keys _).1, (calculate_current_grade_keys _).2⟩

theorem recalcRowFn_finalView (w : World) (sid subjectId : Nat) (t : Term) (e : Rat)
    (g : StudentTermGrade) :
    (recalcRowFn w sid subjectId t e g).finalView = g.finalView :=
  (calculate_current_grade_finalView _).trans rfl

/-- When the assignment's template exists (it is a non-nullable foreign
key), `update_term_grade` always succeeds and can only rewrite the
`StudentTermGrade` table: every other table, the ledger and the settings
are untouched. -/
theorem update_term_grade_shape (a : StudentAssignment) (w : World)
    (htpl : (findTemplate w a.template_id).isSome) :
    ∃ stgs, a.update_term_grade w = .ok { w with studentTermGrades := stgs } := by
  unfold StudentAssignment.update_term_grade
  split
  · exact ⟨w.studentTermGrades, rfl⟩
  · split
    · exact ⟨w.studentTermGrades, rfl⟩
    · split
      · rename_i heq
        rw [heq] at htpl
        cases htpl
      · split
        · exact ⟨w.studentTermGrades, rfl⟩
        · dsimp only
          split
          · exact ⟨_, rfl⟩
          · exact ⟨_, rfl⟩

theorem serviceRowFn_keys (w : World) (sid subjectId : Nat) (t : Term)
    (g : StudentTermGrade) :
    (serviceRowFn w sid subjectId t g).student_id = g.student_id ∧
      (serviceRowFn w sid subjectId t g).term_subject_id = g.term_subject_id :=
  ⟨rfl, rfl⟩

theorem serviceRowFn_finalView (w : World) (sid subjectId : Nat) (t : Term)
    (g : StudentTermGrade) :
    (serviceRowFn w sid subjectId t g).finalView = g.finalView := rfl

theorem serviceProcessPair_preserves_finalView (t : Term) (w : World) (sid : Nat)
    (ts : TermSubject) (sid' tsid' : Nat) (v : FinalGradeView)
    (h : FinalViewAt w.studentTermGrades sid' tsid' v) :
    FinalViewAt (serviceProcessPair t w sid ts).studentTermGrades sid' tsid' v := by
  obtain ⟨g, hg, hv⟩ := h
  unfold serviceProcessPair
  split
  · exact ⟨g, hg, hv⟩
  · dsimp only
    by_cases hpair : sid' = sid ∧ tsid' = ts.id
    · rw [hpair.1, hpair.2]
      rw [hpair.1, hpair.2] at hg
      refine ⟨serviceRowFn w sid ts.subject_id t g, ?_, (serviceRowFn_finalView _ _ _ _ _).trans hv⟩
      rw [findStudentTermGrade_updateFirst_same _ _ _ _
        (fun g0 => serviceRowFn_keys _ _ _ _ g0)]
      rw [findStudentTermGrade_ensure_of_found _ _ _ _ _ _ hg]
      rfl
    · refine ⟨g, ?_, hv⟩
      rw [findStudentTermGrade_updateFirst_other _ _ _ _ _ _
        (fun g0 => serviceRowFn_keys _ _ _ _ g0) hpair]
      exact findStudentTermGrade_ensure_of_found _ _ _ _ _ _ hg

theorem foldl_preserves_finalViewAt {α : Type} (f : World → α → World)
    (sid tsid : Nat) (v : FinalGradeView)
    (hf : ∀ acc x, FinalViewAt acc.studentTermGrades sid tsid v →
      FinalViewAt (f acc x).studentTermGrades sid tsid v)
    (xs : List α) (acc : World)
    (h : FinalViewAt acc.studentTermGrades sid tsid v) :
    FinalViewAt ((xs.foldl f acc).studentTermGrades) sid tsid v := by
  induction xs generalizing acc with
  | nil => exact h
  | cons x rest ih => exact ih _ (hf acc x h)

theorem foldl_stgs_eq {α : Type} (f : World → α → World)
    (hf : ∀ acc x, (f acc x).studentTermGrades = acc.studentTermGrades)
    (xs : List α) (acc : World) :
    ((xs.foldl f acc).studentTermGrades) = acc.studentTermGrades := by
  induction xs generalizing acc with
  | nil => rfl
  | cons x rest ih => rw [List.foldl_cons, ih (f acc x), hf acc x]

theorem autoLinkStep_stgs (t : Term) (acc : World) (x : Nat) :
    (autoLinkStep t acc x).studentTermGrades = acc.studentTermGrades := by
  unfold autoLinkStep
  split <;> rfl

theorem autoLinkTerm_stgs (w : World) (t : Term) :
    (autoLinkTerm w t).studentTermGrades = w.studentTermGrades := by
  unfold autoLinkTerm
  apply foldl_stgs_eq
  intro acc x
  exact autoLinkStep_stgs t acc x

/-- The auto-linking pass creates `TermSubject` rows only: the
`StudentTermGrade` table is untouched. -/
theorem auto_link_stgs (w : World) (term_id : Option Nat) :
    (auto_link_subjects_to_terms w term_id).studentTermGrades = w.studentTermGrades := by
  unfold auto_link_subjects_to_terms
  apply foldl_stgs_eq
  intro acc x
  exact autoLinkTerm_stgs acc x

theorem calculate_student_term_grades_eq (w : World) (term_id : Nat)
    (student_id : Option Nat) :
    calculate_student_term_grades w term_id student_id =
      (match (auto_link_subjects_to_terms w (some term_id)).terms.find?
          (fun t => t.id == term_id) with
      | none => auto_link_subjects_to_terms w (some term_id)
      | some term =>
          (((auto_link_subjects_to_terms w (some term_id)).users.filter
            (fun u => u.role == UserRole.student)).filter (fun u =>
              match student_id with
              | some sid => u.id == sid
              | none => true)).foldl
            (fun acc student =>
              ((auto_link_subjects_to_terms w (some term_id)).termSubjects.filter
                (fun ts => ts.term_id == term_id)).foldl
                (fun acc2 ts => serviceProcessPair term acc2 student.id ts) acc)
            (auto_link_subjects_to_terms w (some term_id))) := rfl

/-- The service recomputation preserves the finalization view of every
existing row. -/
theorem service_preserves_finalView (w : World) (term_id : Nat)
    (student_id : Option Nat) (sid tsid : Nat) (v : FinalGradeView)
    (h : FinalViewAt w.studentTermGrades sid tsid v) :
    FinalViewAt ((calculate_student_term_grades w term_id student_id).studentTermGrades)
      sid tsid v := by
  rw [calculate_student_term_grades_eq]
  have h1 : FinalViewAt ((auto_link_subjects_to_terms w (some term_id)).studentTermGrades)
      sid tsid v := by
    rw [auto_link_stgs]
    exact h
  split
  · exact h1
  · rename_i term heqterm
    apply foldl_preserves_finalViewAt _ sid tsid v
    · intro acc x hacc
      apply foldl_preserves_finalViewAt _ sid tsid v
      · intro acc2 ts hacc2
        exact serviceProcessPair_preserves_finalView term acc2 x.id ts sid tsid v hacc2
      · exact hacc
    · exact h1

theorem serviceGradedRows_set_stgs (w : World) (stgs : List StudentTermGrade)
    (sid subjectId : Nat) (t : Term) :
    serviceGradedRows { w with studentTermGrades := stgs } sid subjectId t =
      serviceGradedRows w sid subjectId t := rfl

theorem serviceProcessPair_as_step (base : World) (t : Term)
    (stgs : List StudentTermGrade) (sid : Nat) (ts : TermSubject) :
    serviceProcessPair t { base with studentTermGrades := stgs } sid ts =
      { base with studentTermGrades := servicePairStep base t stgs sid ts } := by
  unfold serviceProcessPair servicePairStep
  rw [serviceGradedRows_set_stgs]
  split <;> rfl

theorem foldl_pairs_as_steps (base : World) (t : Term)
    (pairs : List (UserRow × TermSubject)) (stgs : List StudentTermGrade) :
    pairs.foldl (fun a p => serviceProcessPair t a p.1.id p.2)
        { base with studentTermGrades := stgs } =
      { base with studentTermGrades :=
          pairs.foldl (fun S p => servicePairStep base t S p.1.id p.2) stgs } := by
  induction pairs generalizing stgs with
  | nil => rfl
  | cons p rest ih =>
      rw [List.foldl_cons, List.foldl_cons, serviceProcessPair_as_step, ih]

theorem foldl_inner_map_pairs (t : Term) (l : List TermSubject) (s : UserRow)
    (acc : World) :
    l.foldl (fun a2 ts => serviceProcessPair t a2 s.id ts) acc =
      (l.map (fun ts => (s, ts))).foldl (fun a p => serviceProcessPair t a p.1.id p.2)
        acc := by
  induction l generalizing acc with
  | nil => rfl
  | cons ts rest ih => rw [List.foldl_cons, List.map_cons, List.foldl_cons, ih]

theorem pairsOf_cons (s : UserRow) (rest : List UserRow)
    (term_subjects : List TermSubject) :
    pairsOf (s :: rest) term_subjects =
      term_subjects.map (fun ts => (s, ts)) ++ pairsOf rest term_subjects := rfl

/-- The nested student × term-subject loop as a single fold over the pair
list. -/
theorem foldl_nested_eq_pairs (t : Term) (students : List UserRow)
    (term_subjects : List TermSubject) (acc : World) :
    students.foldl (fun a s =>
        term_subjects.foldl (fun a2 ts => serviceProcessPair t a2 s.id ts) a) acc =
      (pairsOf students term_subjects).foldl
        (fun a p => serviceProcessPair t a p.1.id p.2) acc := by
  induction students generalizing acc with
  | nil => rfl
  | cons s rest ih =>
      rw [List.foldl_cons, pairsOf_cons, List.foldl_append, ← foldl_inner_map_pairs,
        ih]

theorem ensureStudentTermGrade_of_isSome (rows : List StudentTermGrade) (sid tsid : Nat)
    (h : (findStudentTermGrade rows sid tsid).isSome) :
    ensureStudentTermGrade rows sid tsid = rows := by
  unfold ensureStudentTermGrade
  split
  · rfl
  · rename_i heq
    rw [heq] at h
    cases h

theorem updateFirstStudentTermGrade_cons (g : StudentTermGrade)
    (rest : List StudentTermGrade) (sid tsid : Nat)
    (f : StudentTermGrade → StudentTermGrade) :
    updateFirstStudentTermGrade (g :: rest) sid tsid f =
      if (g.student_id == sid && g.term_subject_id == tsid) = true then f g :: rest
      else g :: updateFirstStudentTermGrade rest sid tsid f := rfl

theorem updateFirstStudentTermGrade_eq_self (rows : List StudentTermGrade)
    (sid tsid : Nat) (f : StudentTermGrade → StudentTermGrade) (g : StudentTermGrade)
    (hg : findStudentTermGrade rows sid tsid = some g) (hfg : f g = g) :
    updateFirstStudentTermGrade rows sid tsid f = rows := by
  induction rows with
  | nil => rfl
  | cons r rest ih =>
      rw [updateFirstStudentTermGrade_cons]
      by_cases h : (r.student_id == sid && r.term_subject_id == tsid) = true
      · rw [if_pos h]
        have hr : r = g := by
          rw [findStudentTermGrade_cons] at hg
          rw [if_pos (by simpa [Bool.and_eq_true, beq_iff_eq] using h)] at hg
          exact Option.some_inj.mp hg
        rw [hr, hfg]
      · rw [if_neg h]
        rw [findStudentTermGrade_cons] at hg
        rw [if_neg (by simpa [Bool.and_eq_true, beq_iff_eq] using h)] at hg
        rw [ih hg]

/-- Re-applying the service's field rewrite changes nothing: the written
values do not depend on the row. -/
theorem serviceRowFn_idem (w : World) (sid subjectId : Nat) (t : Term)
    (g : StudentTermGrade) :
    serviceRowFn w sid subjectId t (serviceRowFn w sid subjectId t g) =
      serviceRowFn w sid subjectId t g := rfl

/-- One pair step settles its own pair. -/
theorem servicePairStep_settles (base : World) (t : Term)
    (stgs : List StudentTermGrade) (p : UserRow × TermSubject) :
    PairSettled base t (servicePairStep base t stgs p.1.id p.2) p := by
  unfold servicePairStep
  split
  · rename_i heq
    exact Or.inl heq
  · right
    obtain ⟨g0, hg0⟩ := Option.isSome_iff_exists.mp
      (findStudentTermGrade_ensure_isSome stgs p.1.id p.2.id)
    refine ⟨serviceRowFn base p.1.id p.2.subject_id t g0, ?_,
      serviceRowFn_idem base p.1.id p.2.subject_id t g0⟩
    rw [findStudentTermGrade_updateFirst_same _ _ _ _
      (fun g1 => serviceRowFn_keys _ _ _ _ g1), hg0]
    rfl

/-- A pair step under a different key leaves a settled pair settled. -/
theorem servicePairStep_preserves (base : World) (t : Term)
    (stgs : List StudentTermGrade) (p q : UserRow × TermSubject)
    (hk : pairKey q ≠ pairKey p)
    (h : PairSettled base t stgs p) :
    PairSettled base t (servicePairStep base t stgs q.1.id q.2) p := by
  rcases h with h | ⟨g, hg, hfg⟩
  · exact Or.inl h
  · right
    refine ⟨g, ?_, hfg⟩
    unfold servicePairStep
    split
    · exact hg
    · have hne : ¬(p.1.id = q.1.id ∧ p.2.id = q.2.id) := by
        intro hc
        exact hk (by unfold pairKey; rw [hc.1, hc.2])
      rw [findStudentTermGrade_updateFirst_other _ _ _ _ _ _
        (fun g1 => serviceRowFn_keys _ _ _ _ g1) hne]
      exact findStudentTermGrade_ensure_of_found _ _ _ _ _ _ hg

/-- A settled pair's step is a no-op on the table. -/
theorem servicePairStep_of_settled (base : World) (t : Term)
    (stgs : List StudentTermGrade) (p : UserRow × TermSubject)
    (h : PairSettled base t stgs p) :
    servicePairStep base t stgs p.1.id p.2 = stgs := by
  unfold servicePairStep
  split
  · rfl
  · rename_i heq
    rcases h with h | ⟨g, hg, hfg⟩
    · exact absurd h heq
    · rw [ensureStudentTermGrade_of_isSome _ _ _ (by rw [hg]; rfl)]
      exact updateFirstStudentTermGrade_eq_self _ _ _ _ g hg hfg

/-- Folding further pair steps with keys different from `p`'s keeps `p`
settled. -/
theorem foldSteps_preserves_settled (base : World) (t : Term)
    (rest : List (UserRow × TermSubject)) (stgs : List StudentTermGrade)
    (p : UserRow × TermSubject)
    (hk : ∀ q ∈ rest, pairKey q ≠ pairKey p)
    (h : PairSettled base t stgs p) :
    PairSettled base t
      (rest.foldl (fun S q => servicePairStep base t S q.1.id q.2) stgs) p := by
  induction rest generalizing stgs with
  | nil => exact h
  | cons q rest' ih =>
      rw [List.foldl_cons]
      exact ih _ (fun q' hq' => hk q' (List.mem_cons_of_mem _ hq'))
        (servicePairStep_preserves base t stgs p q (hk q (List.mem_cons_self _ _)) h)

/-- After one full pass over pairs with pairwise-distinct keys, every pair
is settled. -/
theorem foldSteps_settles_all (base : World) (t : Term)
    (pairs : List (UserRow × TermSubject)) (stgs : List StudentTermGrade)
    (hnd : (pairs.map pairKey).Nodup) :
    ∀ p ∈ pairs, PairSettled base t
      (pairs.foldl (fun S q => servicePairStep base t S q.1.id q.2) stgs) p := by
  induction pairs generalizing stgs with
  | nil => intro p hp; cases hp
  | cons q rest ih =>
      rw [List.map_cons, List.nodup_cons] at hnd
      intro p hp
      rw [List.foldl_cons]
      rcases List.mem_cons.mp hp with rfl | hp'
      · apply foldSteps_preserves_settled
        · intro q' hq' hc
          exact hnd.1 (hc ▸ List.mem_map_of_mem pairKey hq')
        · exact servicePairStep_settles base t stgs p
      · exact ih _ hnd.2 p hp'

/-- A pass over pairs that are all settled leaves the table unchanged. -/
theorem foldSteps_of_all_settled (base : World) (t : Term)
    (pairs : List (UserRow × TermSubject)) (stgs : List StudentTermGrade)
    (h : ∀ p ∈ pairs, PairSettled base t stgs p) :
    pairs.foldl (fun S q => servicePairStep base t S q.1.id q.2) stgs = stgs := by
  induction pairs with
  | nil => rfl
  | cons q rest ih =>
      rw [List.foldl_cons, servicePairStep_of_settled base t stgs q
        (h q (List.mem_cons_self _ _))]
      exact ih (fun p hp => h p (List.mem_cons_of_mem _ hp))

/-! Auto-linking lemmas: created links persist, and a second pass creates
nothing. -/

theorem autoLinkStep_shape (t : Term) (acc : World) (x : Nat) :
    ∃ more, autoLinkStep t acc x =
      { acc with termSubjects := acc.termSubjects ++ more } := by
  unfold autoLinkStep
  split
  · exact ⟨[], by rw [List.append_nil]⟩
  · exact ⟨_, rfl⟩

theorem foldl_termSubjects_shape {α : Type} (f : World → α → World)
    (hf : ∀ acc x, ∃ more, f acc x = { acc with termSubjects := acc.termSubjects ++ more })
    (xs : List α) (acc : World) :
    ∃ more, xs.foldl f acc = { acc with termSubjects := acc.termSubjects ++ more } := by
  induction xs generalizing acc with
  | nil =>
      refine ⟨[], ?_⟩
      rw [List.append_nil]
      rfl
  | cons x rest ih =>
      obtain ⟨m1, h1⟩ := hf acc x
      obtain ⟨m2, h2⟩ := ih (f acc x)
      refine ⟨m1 ++ m2, ?_⟩
      rw [List.foldl_cons, h2, h1, ← List.append_assoc]

theorem autoLinkTerm_shape (acc : World) (t : Term) :
    ∃ more, autoLinkTerm acc t =
      { acc with termSubjects := acc.termSubjects ++ more } := by
  unfold autoLinkTerm
  exact foldl_termSubjects_shape _ (autoLinkStep_shape t) _ acc

theorem auto_link_shape (w : World) (term_id : Option Nat) :
    ∃ more, auto_link_subjects_to_terms w term_id =
      { w with termSubjects := w.termSubjects ++ more } := by
  unfold auto_link_subjects_to_terms
  exact foldl_termSubjects_shape _ (fun acc t => autoLinkTerm_shape acc t) _ w

theorem findTermSubject_mono_shape (acc : World) (more : List TermSubject)
    (termId subjectId : Nat)
    (h : (findTermSubject acc termId subjectId).isSome) :
    (findTermSubject { acc with termSubjects := acc.termSubjects ++ more }
      termId subjectId).isSome := by
  unfold findTermSubject at h ⊢
  dsimp only
  rw [List.find?_append]
  obtain ⟨v, hv⟩ := Option.isSome_iff_exists.mp h
  rw [hv]
  rfl

theorem autoLinkStep_mono (t : Term) (acc : World) (x : Nat) (termId subjectId : Nat)
    (h : (findTermSubject acc termId subjectId).isSome) :
    (findTermSubject (autoLinkStep t acc x) termId subjectId).isSome := by
  obtain ⟨more, hm⟩ := autoLinkStep_shape t acc x
  rw [hm]
  exact findTermSubject_mono_shape acc more termId subjectId h

theorem autoLinkFold_mono (t : Term) (l : List Nat) (acc : World)
    (termId subjectId : Nat)
    (h : (findTermSubject acc termId subjectId).isSome) :
    (findTermSubject (l.foldl (autoLinkStep t) acc) termId subjectId).isSome := by
  induction l generalizing acc with
  | nil => exact h
  | cons y rest ih =>
      rw [List.foldl_cons]
      exact ih _ (autoLinkStep_mono t acc y termId subjectId h)

theorem autoLinkStep_links_self (t : Term) (acc : World) (x : Nat) :
    (findTermSubject (autoLinkStep t acc x) t.id x).isSome := by
  unfold autoLinkStep
  split
  · rename_i v heq
    rw [heq]
    rfl
  · rename_i heq
    unfold findTermSubject at heq ⊢
    dsimp only
    rw [List.find?_append, heq]
    simp [List.find?]

theorem autoLinkFold_links_self (t : Term) (l : List Nat) (acc : World) :
    ∀ x ∈ l, (findTermSubject (l.foldl (autoLinkStep t) acc) t.id x).isSome := by
  induction l generalizing acc with
  | nil => intro x hx; cases hx
  | cons y rest ih =>
      intro x hx
      rw [List.foldl_cons]
      rcases List.mem_cons.mp hx with rfl | hx'
      · exact autoLinkFold_mono t rest _ t.id x (autoLinkStep_links_self t acc x)
      · exact ih _ x hx'

theorem autoLinkTerm_links (acc : World) (t : Term) :
    ∀ x ∈ completedSubjectIds acc t,
      (findTermSubject (autoLinkTerm acc t) t.id x).isSome := by
  intro x hx
  exact autoLinkFold_links_self t _ acc x hx

theorem completedSubjectIds_congr (v w : World) (t : Term)
    (ha : v.assignments = w.assignments) (ht : v.templates = w.templates) :
    completedSubjectIds v t = completedSubjectIds w t := by
  unfold completedSubjectIds completedRowsInTerm findTemplate
  rw [ha, ht]

theorem termsFold_mono (L : List Term) (acc : World) (termId subjectId : Nat)
    (h : (findTermSubject acc termId subjectId).isSome) :
    (findTermSubject (L.foldl autoLinkTerm acc) termId subjectId).isSome := by
  induction L generalizing acc with
  | nil => exact h
  | cons t rest ih =>
      rw [List.foldl_cons]
      apply ih
      obtain ⟨more, hm⟩ := autoLinkTerm_shape acc t
      rw [hm]
      exact findTermSubject_mono_shape acc more _ _ h

theorem termsFold_links (L : List Term) (w : World) :
    ∀ t ∈ L, ∀ x ∈ completedSubjectIds w t,
      ∀ acc : World, acc.assignments = w.assignments → acc.templates = w.templates →
      (findTermSubject (L.foldl autoLinkTerm acc) t.id x).isSome := by
  induction L with
  | nil => intro t ht; cases ht
  | cons t0 rest ih =>
      intro t ht x hx acc ha htl
      rw [List.foldl_cons]
      rcases List.mem_cons.mp ht with rfl | ht'
      · apply termsFold_mono
        apply autoLinkTerm_links
        rw [completedSubjectIds_congr acc w t ha htl]
        exact hx
      · refine ih t ht' x hx (autoLinkTerm acc t0) ?_ ?_ <;>
          (obtain ⟨more, hm⟩ := autoLinkTerm_shape acc t0; rw [hm]; assumption)

theorem autoLinkFold_id (t : Term) (l : List Nat) (acc : World)
    (h : ∀ x ∈ l, (findTermSubject acc t.id x).isSome) :
    l.foldl (autoLinkStep t) acc = acc := by
  induction l with
  | nil => rfl
  | cons y rest ih =>
      have hstep : autoLinkStep t acc y = acc := by
        unfold autoLinkStep
        split
        · rfl
        · rename_i heq
          have := h y (List.mem_cons_self _ _)
          rw [heq] at this
          cases this
      rw [List.foldl_cons, hstep, ih (fun x hx => h x (List.mem_cons_of_mem _ hx))]

theorem autoLinkTerm_id_of_linked (acc : World) (t : Term)
    (h : ∀ x ∈ completedSubjectIds acc t, (findTermSubject acc t.id x).isSome) :
    autoLinkTerm acc t = acc := by
  unfold autoLinkTerm
  exact autoLinkFold_id t _ acc h

theorem termsFold_id (L : List Term) (v : World)
    (h : ∀ t ∈ L, ∀ x ∈ completedSubjectIds v t,
      (findTermSubject v t.id x).isSome) :
    L.foldl autoLinkTerm v = v := by
  induction L with
  | nil => rfl
  | cons t rest ih =>
      rw [List.foldl_cons,
        autoLinkTerm_id_of_linked v t (h t (List.mem_cons_self _ _)),
        ih (fun t' ht' => h t' (List.mem_cons_of_mem _ ht'))]

/-- A second auto-link pass on a state whose links already cover every
completed subject creates nothing. -/
theorem auto_link_id_of_linked (v : World) (tid : Nat)
    (h : ∀ t ∈ v.terms.filter (fun t0 => t0.id == tid),
      ∀ x ∈ completedSubjectIds v t, (findTermSubject v t.id x).isSome) :
    auto_link_subjects_to_terms v (some tid) = v :=
  termsFold_id _ v h

/-! Distinctness of the ids involved in the service loop. -/

theorem foldl_max_le_init (rows : List TermSubject) (m : Nat) :
    m ≤ rows.foldl (fun m0 ts => max m0 ts.id) m := by
  induction rows generalizing m with
  | nil => exact Nat.le_refl m
  | cons ts rest ih => exact Nat.le_trans (Nat.le_max_left m ts.id) (ih (max m ts.id))

theorem id_le_foldl_max (rows : List TermSubject) (m : Nat) :
    ∀ ts ∈ rows, ts.id ≤ rows.foldl (fun m0 ts0 => max m0 ts0.id) m := by
  induction rows generalizing m with
  | nil => intro ts h; cases h
  | cons r rest ih =>
      intro ts h
      rw [List.foldl_cons]
      rcases List.mem_cons.mp h with rfl | h'
      · exact Nat.le_trans (Nat.le_max_right m ts.id) (foldl_max_le_init rest _)
      · exact ih _ ts h'

theorem nextTermSubjectId_fresh (rows : List TermSubject) :
    ∀ ts ∈ rows, ts.id < nextTermSubjectId rows := by
  intro ts h
  exact Nat.lt_succ_of_le (id_le_foldl_max rows 0 ts h)

theorem nodup_ids_append_fresh (rows : List TermSubject) (newRow : TermSubject)
    (hn : (rows.map (fun ts => ts.id)).Nodup)
    (hfresh : ∀ ts ∈ rows, ts.id ≠ newRow.id) :
    ((rows ++ [newRow]).map (fun ts => ts.id)).Nodup := by
  rw [List.map_append]
  apply List.Nodup.append hn (List.nodup_singleton _)
  intro a ha hb
  rw [List.mem_map] at ha
  obtain ⟨ts, hts, rfl⟩ := ha
  rw [List.mem_singleton] at hb
  exact hfresh ts hts hb

theorem autoLinkStep_nodup (t : Term) (acc : World) (x : Nat)
    (h : (acc.termSubjects.map (fun ts => ts.id)).Nodup) :
    ((autoLinkStep t acc x).termSubjects.map (fun ts => ts.id)).Nodup := by
  unfold autoLinkStep
  split
  · exact h
  · dsimp only
    apply nodup_ids_append_fresh _ _ h
    intro ts hts
    exact Nat.ne_of_lt (nextTermSubjectId_fresh acc.termSubjects ts hts)

theorem foldl_nodup_ids {α : Type} (f : World → α → World)
    (hf : ∀ acc x, (acc.termSubjects.map (fun ts => ts.id)).Nodup →
      ((f acc x).termSubjects.map (fun ts => ts.id)).Nodup)
    (xs : List α) (acc : World)
    (h : (acc.termSubjects.map (fun ts => ts.id)).Nodup) :
    (((xs.foldl f acc).termSubjects).map (fun ts => ts.id)).Nodup := by
  induction xs generalizing acc with
  | nil => exact h
  | cons x rest ih => exact ih _ (hf acc x h)

theorem autoLinkTerm_nodup (acc : World) (t : Term)
    (h : (acc.termSubjects.map (fun ts => ts.id)).Nodup) :
    (((autoLinkTerm acc t).termSubjects).map (fun ts => ts.id)).Nodup := by
  unfold autoLinkTerm
  exact foldl_nodup_ids _ (autoLinkStep_nodup t) _ acc h

theorem auto_link_nodup (w : World) (term_id : Option Nat)
    (h : (w.termSubjects.map (fun ts => ts.id)).Nodup) :
    (((auto_link_subjects_to_terms w term_id).termSubjects).map
      (fun ts => ts.id)).Nodup := by
  unfold auto_link_subjects_to_terms
  exact foldl_nodup_ids _ (fun acc t => autoLinkTerm_nodup acc t) _ w h

theorem nodup_ts_ids_filter (rows : List TermSubject) (p : TermSubject → Bool)
    (h : (rows.map (fun ts => ts.id)).Nodup) :
    ((rows.filter p).map (fun ts => ts.id)).Nodup :=
  h.sublist ((List.filter_sublist rows).map (fun ts => ts.id))

theorem nodup_user_ids_filter (rows : List UserRow) (p : UserRow → Bool)
    (h : (rows.map (fun u => u.id)).Nodup) :
    ((rows.filter p).map (fun u => u.id)).Nodup :=
  h.sublist ((List.filter_sublist rows).map (fun u => u.id))

theorem mem_pairsOf (students : List UserRow) (tss : List TermSubject)
    (p : UserRow × TermSubject) (h : p ∈ pairsOf students tss) :
    p.1 ∈ students ∧ p.2 ∈ tss := by
  induction students with
  | nil => cases h
  | cons s rest ih =>
      rw [pairsOf_cons, List.mem_append] at h
      rcases h with h | h
      · rw [List.mem_map] at h
        obtain ⟨ts, hts, rfl⟩ := h
        exact ⟨List.mem_cons_self _ _, hts⟩
      · obtain ⟨h1, h2⟩ := ih h
        exact ⟨List.mem_cons_of_mem _ h1, h2⟩

theorem pairsOf_keys_nodup (students : List UserRow) (tss : List TermSubject)
    (h1 : (students.map (fun u => u.id)).Nodup)
    (h2 : (tss.map (fun ts => ts.id)).Nodup) :
    ((pairsOf students tss).map pairKey).Nodup := by
  induction students with
  | nil => exact List.nodup_nil
  | cons s rest ih =>
      rw [pairsOf_cons, List.map_append]
      rw [List.map_cons, List.nodup_cons] at h1
      apply List.Nodup.append
      · rw [List.map_map]
        have hmap : (pairKey ∘ fun ts => (s, ts)) = (fun j => (s.id, j)) ∘ (fun ts : TermSubject => ts.id) := rfl
        rw [hmap, ← List.map_map]
        exact h2.map (fun a b hab => (Prod.ext_iff.mp hab).2)
      · exact ih h1.2
      · intro a ha hb
        rw [List.map_map, List.mem_map] at ha
        obtain ⟨ts, hts, rfl⟩ := ha
        rw [List.mem_map] at hb
        obtain ⟨q, hq, hkey⟩ := hb
        have hq1 : q.1 ∈ rest := (mem_pairsOf rest tss q hq).1
        have : q.1.id = s.id := congrArg Prod.fst hkey
        exact h1.1 (this ▸ List.mem_map_of_mem (fun u => u.id) hq1)

theorem servicePairStep_set_stgs (w : World) (S : List StudentTermGrade) (t : Term)
    (stgs : List StudentTermGrade) (sid : Nat) (ts : TermSubject) :
    servicePairStep { w with studentTermGrades := S } t stgs sid ts =
      servicePairStep w t stgs sid ts := rfl

theorem foldl_pairs_from_world (base : World) (t : Term)
    (pairs : List (UserRow × TermSubject)) :
    pairs.foldl (fun a p => serviceProcessPair t a p.1.id p.2) base =
      { base with
        studentTermGrades :=
          pairs.foldl (fun S p => servicePairStep base t S p.1.id p.2)
            base.studentTermGrades } :=
  foldl_pairs_as_steps base t pairs base.studentTermGrades

/-- The service recomputation is idempotent: with distinct user ids and
distinct term-subject ids, a second run returns exactly the state the
first produced. -/
theorem calculate_student_term_grades_idempotent (v : World) (term_id : Nat)
    (student_id : Option Nat)
    (husers : (v.users.map (fun u => u.id)).Nodup)
    (hts : (v.termSubjects.map (fun ts => ts.id)).Nodup) :
    calculate_student_term_grades (calculate_student_term_grades v term_id student_id)
        term_id student_id =
      calculate_student_term_grades v term_id student_id := by
  obtain ⟨M, hM⟩ := auto_link_shape v (some term_id)
  have hlinks0 : ∀ t ∈ v.terms.filter (fun t0 => t0.id == term_id),
      ∀ x ∈ completedSubjectIds v t,
      (findTermSubject (auto_link_subjects_to_terms v (some term_id)) t.id x).isSome := by
    intro t ht x hx
    exact termsFold_links _ v t ht x hx v rfl rfl
  have hndA : (((auto_link_subjects_to_terms v (some term_id)).termSubjects).map
      (fun ts => ts.id)).Nodup := auto_link_nodup v (some term_id) hts
  rw [calculate_student_term_grades_eq v term_id student_id]
  obtain ⟨A, hA⟩ : ∃ A, auto_link_subjects_to_terms v (some term_id) = A := ⟨_, rfl⟩
  rw [hA] at hlinks0 hndA hM ⊢
  cases hopt : A.terms.find? (fun t => t.id == term_id) with
  | none =>
      show calculate_student_term_grades A term_id student_id = A
      have hidA : auto_link_subjects_to_terms A (some term_id) = A := by
        apply auto_link_id_of_linked
        intro t ht x hx
        rw [hM] at ht hx
        exact hlinks0 t ht x hx
      rw [calculate_student_term_grades_eq A term_id student_id, hidA]
      simp only [hopt]
  | some term =>
      show calculate_student_term_grades
        (((A.users.filter (fun u => u.role == UserRole.student)).filter (fun u =>
            match student_id with
            | some sid => u.id == sid
            | none => true)).foldl
          (fun acc student =>
            (A.termSubjects.filter (fun ts => ts.term_id == term_id)).foldl
              (fun acc2 ts => serviceProcessPair term acc2 student.id ts) acc) A)
        term_id student_id =
        ((A.users.filter (fun u => u.role == UserRole.student)).filter (fun u =>
            match student_id with
            | some sid => u.id == sid
            | none => true)).foldl
          (fun acc student =>
            (A.termSubjects.filter (fun ts => ts.term_id == term_id)).foldl
              (fun acc2 ts => serviceProcessPair term acc2 student.id ts) acc) A
      rw [foldl_nested_eq_pairs, foldl_pairs_from_world]
      have hidA2 : auto_link_subjects_to_terms
          { A with
            studentTermGrades :=
              (pairsOf
                ((A.users.filter (fun u => u.role == UserRole.student)).filter (fun u =>
                  match student_id with
                  | some sid => u.id == sid
                  | none => true))
                (A.termSubjects.filter (fun ts => ts.term_id == term_id))).foldl
                (fun S p => servicePairStep A term S p.1.id p.2) A.studentTermGrades }
          (some term_id) =
          { A with
            studentTermGrades :=
              (pairsOf
                ((A.users.filter (fun u => u.role == UserRole.student)).filter (fun u =>
                  match student_id with
                  | some sid => u.id == sid
                  | none => true))
                (A.termSubjects.filter (fun ts => ts.term_id == term_id))).foldl
                (fun S p => servicePairStep A term S p.1.id p.2) A.studentTermGrades } := by
        apply auto_link_id_of_linked
        intro t ht x hx
        rw [hM] at ht hx
        exact hlinks0 t ht x hx
      rw [calculate_student_term_grades_eq _ term_id student_id, hidA2]
      have hfind2 : ({ A with
          studentTermGrades :=
            (pairsOf
            ((A.users.filter (fun u => u.role == UserRole.student)).filter (fun u =>
              match student_id with
              | some sid => u.id == sid
              | none => true))
              (A.termSubjects.filter (fun ts => ts.term_id == term_id))).foldl
              (fun S p => servicePairStep A term S p.1.id p.2) A.studentTermGrades } :
          World).terms.find? (fun t => t.id == term_id) = some term := hopt
      simp only [hfind2]
      rw [foldl_nested_eq_pairs, foldl_pairs_from_world]
      dsimp only
      simp only [servicePairStep_set_stgs]
      have hkeysnd : ((pairsOf
          ((A.users.filter (fun u => u.role == UserRole.student)).filter (fun u =>
            match student_id with
            | some sid => u.id == sid
            | none => true))
          (A.termSubjects.filter (fun ts => ts.term_id == term_id))).map pairKey).Nodup := by
        apply pairsOf_keys_nodup
        · apply nodup_user_ids_filter
          apply nodup_user_ids_filter
          rw [hM]
          exact husers
        · exact nodup_ts_ids_filter _ _ hndA
      have hsettled := foldSteps_settles_all A term
        (pairsOf
          ((A.users.filter (fun u => u.role == UserRole.student)).filter (fun u =>
            match student_id with
            | some sid => u.id == sid
            | none => true))
          (A.termSubjects.filter (fun ts => ts.term_id == term_id)))
        A.studentTermGrades hkeysnd
      have hfold2 := foldSteps_of_all_settled A term
        (pairsOf
          ((A.users.filter (fun u => u.role == UserRole.student)).filter (fun u =>
            match student_id with
            | some sid => u.id == sid
            | none => true))
          (A.termSubjects.filter (fun ts => ts.term_id == term_id)))
        ((pairsOf
          ((A.users.filter (fun u => u.role == UserRole.student)).filter (fun u =>
            match student_id with
            | some sid => u.id == sid
            | none => true))
          (A.termSubjects.filter (fun ts => ts.term_id == term_id))).foldl
          (fun S p => servicePairStep A term S p.1.id p.2) A.studentTermGrades)
        hsettled
      rw [hfold2]

/-- C5: once a row is finalized (`finalize_grade` sets `is_finalized`), a
subsequent `update_term_grade` recalculation leaves every `final_*`
column, `is_finalized`, `finalized_date` and `finalized_by` unchanged —
the recalculation writes only the `current_*` and `assignments_*`
columns. -/
theorem recalculation_preserves_final_fields (w : World) (a : StudentAssignment)
    (sid tsid : Nat) (g : StudentTermGrade)
    (hg : findStudentTermGrade w.studentTermGrades sid tsid = some g)
    (hfin : g.is_finalized = true)
    (w' : World) (hrun : a.update_term_grade w = .ok w') :
    ((findStudentTermGrade w'.studentTermGrades sid tsid).map StudentTermGrade.finalView =
      some g.finalView) ∧
    ∀ term_id student_id,
      (findStudentTermGrade
        (calculate_student_term_grades w term_id student_id).studentTermGrades
        sid tsid).map StudentTermGrade.finalView = some g.finalView := by
  constructor
  ·
      unfold StudentAssignment.update_term_grade at hrun
      split at hrun
      · cases hrun
        rw [hg]
        rfl
      · split at hrun
        · cases hrun
          rw [hg]
          rfl
        · rename_i active_term heq_active
          split at hrun
          · cases hrun
          · rename_i tpl heq_tpl
            split at hrun
            · cases hrun
              rw [hg]
              rfl
            · rename_i term_subject heq_ts
              dsimp only at hrun
              split at hrun
              · cases hrun
                dsimp only
                rw [findStudentTermGrade_ensure_of_found _ _ _ _ _ _ hg]
                rfl
              · rename_i total_earned _
                cases hrun
                dsimp only
                by_cases hpair : sid = a.student_id ∧ tsid = term_subject.id
                · rw [hpair.1, hpair.2]
                  rw [findStudentTermGrade_updateFirst_same _ _ _ _
                    (fun g0 => recalcRowFn_keys _ _ _ _ _ g0)]
                  rw [findStudentTermGrade_ensure_of_found _ _ _ _ _ _
                    (hpair.1 ▸ hpair.2 ▸ hg)]
                  simp only [Option.map_map, Option.map_some', Function.comp_apply]
                  exact congrArg some (recalcRowFn_finalView _ _ _ _ _ _)
                · rw [findStudentTermGrade_updateFirst_other _ _ _ _ _ _
                    (fun g0 => recalcRowFn_keys _ _ _ _ _ g0) hpair]
                  rw [findStudentTermGrade_ensure_of_found _ _ _ _ _ _ hg]
                  rfl
  · intro term_id student_id
    obtain ⟨g', hfind, hview⟩ :=
      service_preserves_finalView w term_id student_id sid tsid g.finalView ⟨g, hg, rfl⟩
    rw [hfind]
    exact congrArg some hview

/-- Witness for C5: recalculating after `finalize_grade` leaves the
`final_*` columns of the finalized row intact. -/
theorem final_fields_witness :
    ∃ w', gradedAssignment50.update_term_grade finalizedWorld = .ok w' ∧
      (findStudentTermGrade w'.studentTermGrades 1 1).map StudentTermGrade.finalView =
        some finalizedRow.finalView ∧
      (findStudentTermGrade
        (calculate_student_term_grades finalizedWorld 1 none).studentTermGrades
        1 1).map StudentTermGrade.finalView = some finalizedRow.finalView := by
  obtain ⟨stgs, hok⟩ := update_term_grade_shape gradedAssignment50 finalizedWorld (by rfl)
  have h := recalculation_preserves_final_fields finalizedWorld gradedAssignment50 1 1
    finalizedRow rfl rfl _ hok
  exact ⟨_, hok, h.1, h.2 1 none⟩

/-! Field-preservation lemmas for the graded row and the endpoint
reduction lemma shared by the error-handling claims. -/

theorem gradedRow_id (a : StudentAssignment) (gd : StudentAssignmentGrade)
    (gid : Nat) (today : Int) (m : Int) : (gradedRow a gd gid today m).id = a.id := by
  unfold gradedRow StudentAssignment.update_status StudentAssignment.calculate_percentage_grade
  dsimp only
  repeat' split
  all_goals rfl

theorem gradedRow_template_id (a : StudentAssignment) (gd : StudentAssignmentGrade)
    (gid : Nat) (today : Int) (m : Int) :
    (gradedRow a gd gid today m).template_id = a.template_id := by
  unfold gradedRow StudentAssignment.update_status StudentAssignment.calculate_percentage_grade
  dsimp only
  repeat' split
  all_goals rfl

theorem gradedRow_student_id (a : StudentAssignment) (gd : StudentAssignmentGrade)
    (gid : Nat) (today : Int) (m : Int) :
    (gradedRow a gd gid today m).student_id = a.student_id := by
  unfold gradedRow StudentAssignment.update_status StudentAssignment.calculate_percentage_grade
  dsimp only
  repeat' split
  all_goals rfl

theorem gradedRow_is_graded (a : StudentAssignment) (gd : StudentAssignmentGrade)
    (gid : Nat) (today : Int) (m : Int) :
    (gradedRow a gd gid today m).is_graded = true := by
  unfold gradedRow StudentAssignment.update_status StudentAssignment.calculate_percentage_grade
  dsimp only
  repeat' split
  all_goals rfl

theorem gradedRow_points_earned (a : StudentAssignment) (gd : StudentAssignmentGrade)
    (gid : Nat) (today : Int) (m : Int) :
    (gradedRow a gd gid today m).points_earned = some gd.points_earned := by
  unfold gradedRow StudentAssignment.update_status StudentAssignment.calculate_percentage_grade
  dsimp only
  repeat' split
  all_goals rfl

theorem gradedRow_graded_by (a : StudentAssignment) (gd : StudentAssignmentGrade)
    (gid : Nat) (today : Int) (m : Int) :
    (gradedRow a gd gid today m).graded_by = some gid := by
  unfold gradedRow StudentAssignment.update_status StudentAssignment.calculate_percentage_grade
  dsimp only
  repeat' split
  all_goals rfl

/-- Reduction of the grading endpoint through its admin, lookup and
validation steps. -/
theorem grade_student_assignment_eq (w : World) (assignment_id : Nat)
    (grade_data : StudentAssignmentGrade) (current_user : UserRow) (today : Int)
    (award_raises : Bool) (assignment : StudentAssignment) (tpl : AssignmentTemplate)
    (hadmin : current_user.role = .admin)
    (hfind : w.assignments.find? (fun r => r.id == assignment_id) = some assignment)
    (hstud : (w.users.find? (fun u =>
      u.id == assignment.student_id && u.role == .student)).isSome)
    (htpl : findTemplate w assignment.template_id = some tpl)
    (hval : grade_data.points_earned ≤
      ((pyMaxPoints assignment.custom_max_points tpl.max_points : Int) : Rat)) :
    grade_student_assignment w assignment_id grade_data current_user today award_raises =
      (let a4 := gradedRow assignment grade_data current_user.id today
        (pyMaxPoints assignment.custom_max_points tpl.max_points)
      let w1 := { w with assignments := updateFirstAssignment w.assignments assignment_id a4 }
      match a4.update_term_grade w1 with
      | .error e => .error (.internal e)
      | .ok w2 =>
          let w3 :=
            if is_points_system_enabled w2.settings then
              if award_raises then w2
              else
                let pts := award_assignment_points w2.points a4.student_id a4.id
                  (ratFloorToInt grade_data.points_earned) tpl.name
                { w2 with points := pts }
            else w2
          .ok (a4, w3)) := by
  obtain ⟨u, hu⟩ := Option.isSome_iff_exists.mp hstud
  unfold grade_student_assignment
  rw [hadmin]
  simp only [beq_self_eq_true, Bool.not_true, Bool.false_eq_true, if_false, hfind, hu, htpl]
  rw [if_neg (not_lt.mpr hval)]

/-- When no term is active (or, for the found active term, the
term-subject link for the given subject is missing), `update_term_grade`
is a no-op. -/
theorem update_term_grade_skip (a : StudentAssignment) (w : World)
    (tpl : AssignmentTemplate) (htpl : findTemplate w a.template_id = some tpl)
    (hskip : activeTerm w = none ∨
      ∀ t, activeTerm w = some t → findTermSubject w t.id tpl.subject_id = none) :
    a.update_term_grade w = .ok w := by
  unfold StudentAssignment.update_term_grade
  split
  · rfl
  · split
    · rfl
    · rename_i t heq_t
      rcases hskip with hnone | hlink
      · rw [hnone] at heq_t
        cases heq_t
      · simp only [htpl, hlink t heq_t]

/-- C8: when no term is marked active, or the term-subject link for the
assignment's subject does not exist, grading skips the term-grade
recalculation as a no-op: the endpoint still returns success and no
`StudentTermGrade` row is created or modified. -/
theorem grading_succeeds_when_recalculation_skipped (w : World) (assignment_id : Nat)
    (grade_data : StudentAssignmentGrade) (current_user : UserRow) (today : Int)
    (award_raises : Bool) (assignment : StudentAssignment) (tpl : AssignmentTemplate)
    (hadmin : current_user.role = .admin)
    (hfind : w.assignments.find? (fun r => r.id == assignment_id) = some assignment)
    (hstud : (w.users.find? (fun u =>
      u.id == assignment.student_id && u.role == .student)).isSome)
    (htpl : findTemplate w assignment.template_id = some tpl)
    (hval : grade_data.points_earned ≤
      ((pyMaxPoints assignment.custom_max_points tpl.max_points : Int) : Rat))
    (hskip : activeTerm w = none ∨
      ∀ t, activeTerm w = some t → findTermSubject w t.id tpl.subject_id = none) :
    ∃ a' w', grade_student_assignment w assignment_id grade_data current_user today
        award_raises = .ok (a', w') ∧
      w'.studentTermGrades = w.studentTermGrades := by
  rw [grade_student_assignment_eq w assignment_id grade_data current_user today
    award_raises assignment tpl hadmin hfind hstud htpl hval]
  dsimp only
  set a4 := gradedRow assignment grade_data current_user.id today
    (pyMaxPoints assignment.custom_max_points tpl.max_points) with ha4
  set w1 : World :=
    { w with assignments := updateFirstAssignment w.assignments assignment_id a4 } with hw1
  have htpl1 : findTemplate w1 a4.template_id = some tpl := by
    rw [gradedRow_template_id]
    exact htpl
  have hskip1 : activeTerm w1 = none ∨
      ∀ t, activeTerm w1 = some t → findTermSubject w1 t.id tpl.subject_id = none :=
    hskip
  rw [update_term_grade_skip a4 w1 tpl htpl1 hskip1]
  dsimp only
  refine ⟨a4, _, rfl, ?_⟩
  split
  · split
    · rfl
    · rfl
  · rfl

/-- Witness for C8 (Scenario 4): with two inactive terms, grading returns
success and the `StudentTermGrade` table is untouched. -/
theorem grading_without_active_term_witness :
    ∃ a' w', grade_student_assignment twoInactiveTermsWorld 7
        { points_earned := 85 } { id := 2, role := .admin } 20 false = .ok (a', w') ∧
      w'.studentTermGrades = twoInactiveTermsWorld.studentTermGrades :=
  grading_succeeds_when_recalculation_skipped twoInactiveTermsWorld 7
    { points_earned := 85 } { id := 2, role := .admin } 20 false
    { id := 7, template_id := 1, student_id := 1, assigned_date := 10 }
    { id := 1, name := "Worksheet", subject_id := 1, max_points := 100 }
    rfl rfl rfl rfl (by norm_num [pyMaxPoints]) (Or.inl rfl)

/-- C2: when `award_assignment_points` raises an internal error during
grading, the endpoint still returns success with the grade fields
recorded, and the points subsystem — the `PointTransaction` ledger and the
`StudentPoints` balances — is exactly as it was (no partial effect). -/
theorem award_failure_is_nonfatal (w : World) (assignment_id : Nat)
    (grade_data : StudentAssignmentGrade) (current_user : UserRow) (today : Int)
    (assignment : StudentAssignment) (tpl : AssignmentTemplate)
    (hadmin : current_user.role = .admin)
    (hfind : w.assignments.find? (fun r => r.id == assignment_id) = some assignment)
    (hstud : (w.users.find? (fun u =>
      u.id == assignment.student_id && u.role == .student)).isSome)
    (htpl : findTemplate w assignment.template_id = some tpl)
    (hval : grade_data.points_earned ≤
      ((pyMaxPoints assignment.custom_max_points tpl.max_points : Int) : Rat)) :
    ∃ a' w', grade_student_assignment w assignment_id grade_data current_user today
        true = .ok (a', w') ∧
      w'.points = w.points ∧
      a'.is_graded = true ∧
      a'.points_earned = some grade_data.points_earned ∧
      a'.graded_by = some current_user.id := by
  rw [grade_student_assignment_eq w assignment_id grade_data current_user today
    true assignment tpl hadmin hfind hstud htpl hval]
  dsimp only
  set a4 := gradedRow assignment grade_data current_user.id today
    (pyMaxPoints assignment.custom_max_points tpl.max_points) with ha4
  set w1 : World :=
    { w with assignments := updateFirstAssignment w.assignments assignment_id a4 } with hw1
  have htpl1 : (findTemplate w1 a4.template_id).isSome := by
    rw [gradedRow_template_id]
    show (findTemplate w assignment.template_id).isSome
    rw [htpl]
    rfl
  obtain ⟨stgs, hok⟩ := update_term_grade_shape a4 w1 htpl1
  rw [hok]
  dsimp only
  refine ⟨a4, _, rfl, ?_, gradedRow_is_graded _ _ _ _ _,
    gradedRow_points_earned _ _ _ _ _, gradedRow_graded_by _ _ _ _ _⟩
  split
  · rfl
  · rfl

/-- Witness for C2: with the points system enabled and the award step
raising, grading still succeeds and the points state is unchanged. -/
theorem award_failure_witness :
    ∃ a' w', grade_student_assignment pointsEnabledWorld 7
        { points_earned := 85 } { id := 2, role := .admin } 20 true = .ok (a', w') ∧
      w'.points = pointsEnabledWorld.points ∧
      a'.is_graded = true ∧
      a'.points_earned = some 85 ∧
      a'.graded_by = some 2 :=
  award_failure_is_nonfatal pointsEnabledWorld 7 { points_earned := 85 }
    { id := 2, role := .admin } 20
    { id := 7, template_id := 1, student_id := 1, assigned_date := 10 }
    { id := 1, name := "Worksheet", subject_id := 1, max_points := 100 }
    rfl rfl rfl rfl (by norm_num [pyMaxPoints])

theorem calculate_letter_grade_eq_table (p : Rat) :
    calculate_letter_grade (some p) = some (tableLetterGrade p) := by
  unfold calculate_letter_grade tableLetterGrade letterGradeTable
  by_cases h0 : (97:Rat) ≤ p
  · simp [List.find?, ge_iff_le, h0]
  · by_cases h1 : (93:Rat) ≤ p
    · simp [List.find?, ge_iff_le, h0, h1]
    · by_cases h2 : (90:Rat) ≤ p
      · simp [List.find?, ge_iff_le, h0, h1, h2]
      · by_cases h3 : (87:Rat) ≤ p
        · simp [List.find?, ge_iff_le, h0, h1, h2, h3]
        · by_cases h4 : (83:Rat) ≤ p
          · simp [List.find?, ge_iff_le, h0, h1, h2, h3, h4]
          · by_cases h5 : (80:Rat) ≤ p
            · simp [List.find?, ge_iff_le, h0, h1, h2, h3, h4, h5]
            · by_cases h6 : (77:Rat) ≤ p
              · simp [List.find?, ge_iff_le, h0, h1, h2, h3, h4, h5, h6]
              · by_cases h7 : (73:Rat) ≤ p
                · simp [List.find?, ge_iff_le, h0, h1, h2, h3, h4, h5, h6, h7]
                · by_cases h8 : (70:Rat) ≤ p
                  · simp [List.find?, ge_iff_le, h0, h1, h2, h3, h4, h5, h6, h7, h8]
                  · by_cases h9 : (67:Rat) ≤ p
                    · simp [List.find?, ge_iff_le, h0, h1, h2, h3, h4, h5, h6, h7, h8, h9]
                    · by_cases h10 : (63:Rat) ≤ p
                      · simp [List.find?, ge_iff_le, h0, h1, h2, h3, h4, h5, h6, h7, h8, h9, h10]
                      · by_cases h11 : (60:Rat) ≤ p
                        · simp [List.find?, ge_iff_le, h0, h1, h2, h3, h4, h5, h6, h7, h8, h9, h10, h11]
                        · simp [List.find?, ge_iff_le, h0, h1, h2, h3, h4, h5, h6, h7, h8, h9, h10, h11]

/-- C6: for `0 ≤ points_earned ≤ max_points` with `max_points > 0`, the
percentage written by `calculate_percentage_grade` is
`points_earned / max_points * 100` and lies in `[0, 100]`; and the letter
grade function is total on percentages, sending every value to exactly one
grade — the one the claim's fixed threshold table assigns. -/
theorem grade_bounds_and_letter_grade_total (a : StudentAssignment)
    (max_points : Int) (pe : Rat) (hpe : a.points_earned = some pe)
    (hmax : 0 < max_points) (h0 : 0 ≤ pe) (hle : pe ≤ (max_points : Rat)) :
    (∃ v, (a.calculate_percentage_grade max_points).percentage_grade = some v ∧
      v = pe / (max_points : Rat) * 100 ∧ 0 ≤ v ∧ v ≤ 100) ∧
    (∀ p : Rat, 0 ≤ p → p ≤ 100 →
      ∃! g, calculate_letter_grade (some p) = some g ∧ g = tableLetterGrade p) := by
  have hmaxQ : (0:Rat) < (max_points : Rat) := by exact_mod_cast hmax
  constructor
  · refine ⟨pe / (max_points : Rat) * 100, ?_, rfl, ?_, ?_⟩
    · unfold StudentAssignment.calculate_percentage_grade
      simp only [hpe]
      rw [if_pos hmax]
    · positivity
    · have h1 : pe / (max_points : Rat) ≤ 1 := (div_le_one hmaxQ).mpr hle
      calc pe / (max_points : Rat) * 100 ≤ 1 * 100 :=
            mul_le_mul_of_nonneg_right h1 (by norm_num)
        _ = 100 := one_mul 100
  · intro p _ _
    refine ⟨tableLetterGrade p, ⟨calculate_letter_grade_eq_table p, rfl⟩, ?_⟩
    intro g' hg'
    exact hg'.2

/-- Witness for C6 (and Scenario 1): 85 of 100 points give percentage 85
and letter grade "B". -/
theorem grade_bounds_witness :
    (∃ v, (assignment85.calculate_percentage_grade 100).percentage_grade = some v ∧
      v = (85 : Rat) / 100 * 100 ∧ 0 ≤ v ∧ v ≤ 100) ∧
    calculate_letter_grade (some 85) = some "B" := by
  refine ⟨?_, ?_⟩
  · exact (grade_bounds_and_letter_grade_total assignment85 100 85 rfl
      (by norm_num) (by norm_num) (by norm_num)).1
  · norm_num [calculate_letter_grade]

/-! Characterization of a full recalculation run, shared by the totals and
idempotence claims. -/

theorem sqlSumRat_eq_some (xs : List (Option Rat)) (h : xs.filterMap id ≠ []) :
    sqlSumRat xs = some (xs.filterMap id).sum := by
  unfold sqlSumRat
  split
  · rename_i heq
    exact absurd heq h
  · rfl

theorem calculate_current_grade_current_fields (g : StudentTermGrade) :
    g.calculate_current_grade.current_points_earned = g.current_points_earned ∧
    g.calculate_current_grade.current_points_possible = g.current_points_possible ∧
    g.calculate_current_grade.current_letter_grade = g.current_letter_grade ∧
    g.calculate_current_grade.assignments_completed = g.assignments_completed ∧
    g.calculate_current_grade.assignments_total = g.assignments_total := by
  unfold StudentTermGrade.calculate_current_grade
  split <;> exact ⟨rfl, rfl, rfl, rfl, rfl⟩

theorem recalcRowFn_fields (w : World) (sid subjectId : Nat) (t : Term) (e : Rat)
    (g : StudentTermGrade) :
    (recalcRowFn w sid subjectId t e g).current_points_earned = e ∧
    (recalcRowFn w sid subjectId t e g).current_points_possible =
      ((totalPossible w sid subjectId t : Int) : Rat) ∧
    (recalcRowFn w sid subjectId t e g).assignments_completed =
      (((termAssignmentRows w sid subjectId t).filter
        (fun r => r.is_graded)).length : Int) ∧
    (recalcRowFn w sid subjectId t e g).assignments_total =
      ((termAssignmentRows w sid subjectId t).length : Int) ∧
    (recalcRowFn w sid subjectId t e g).current_letter_grade = g.current_letter_grade := by
  unfold recalcRowFn StudentTermGrade.calculate_current_grade
  dsimp only
  split <;> exact ⟨rfl, rfl, rfl, rfl, rfl⟩

theorem recalcRowFn_idem (w : World) (sid subjectId : Nat) (t : Term) (e : Rat)
    (g : StudentTermGrade) :
    recalcRowFn w sid subjectId t e (recalcRowFn w sid subjectId t e g) =
      recalcRowFn w sid subjectId t e g := by
  unfold recalcRowFn StudentTermGrade.calculate_current_grade
  dsimp only
  by_cases hP : ((totalPossible w sid subjectId t : Int) : Rat) > 0
  · simp only [if_pos hP]
  · simp only [if_neg hP]

theorem updateFirstStudentTermGrade_twice (rows : List StudentTermGrade) (sid tsid : Nat)
    (f : StudentTermGrade → StudentTermGrade)
    (hkey : ∀ g, (f g).student_id = g.student_id ∧ (f g).term_subject_id = g.term_subject_id)
    (hidem : ∀ g, f (f g) = f g) :
    updateFirstStudentTermGrade (updateFirstStudentTermGrade rows sid tsid f) sid tsid f =
      updateFirstStudentTermGrade rows sid tsid f := by
  induction rows with
  | nil => rfl
  | cons g rest ih =>
      rw [updateFirstStudentTermGrade_cons]
      by_cases h : (g.student_id == sid && g.term_subject_id == tsid) = true
      · rw [if_pos h, updateFirstStudentTermGrade_cons]
        have h' : ((f g).student_id == sid && (f g).term_subject_id == tsid) = true := by
          rw [(hkey g).1, (hkey g).2]
          exact h
        rw [if_pos h', hidem g]
      · rw [if_neg h, updateFirstStudentTermGrade_cons, if_neg h, ih]

/-- The full run of `update_term_grade` on the non-skip path: the
`StudentTermGrade` table becomes a find-or-create followed by a first-match
rewrite with the recalculated totals. -/
theorem update_term_grade_run (w : World) (a : StudentAssignment) (t : Term)
    (tpl : AssignmentTemplate) (ts : TermSubject)
    (hguard : a.is_graded = true) (hpts : pyFalsyPoints a.points_earned = false)
    (hterm : activeTerm w = some t) (htpl : findTemplate w a.template_id = some tpl)
    (hts : findTermSubject w t.id tpl.subject_id = some ts)
    (hne : (termAssignmentRows w a.student_id tpl.subject_id t).filterMap
      (fun r => r.points_earned) ≠ []) :
    a.update_term_grade w = .ok { w with
      studentTermGrades :=
        updateFirstStudentTermGrade
          (ensureStudentTermGrade w.studentTermGrades a.student_id ts.id)
          a.student_id ts.id
          (recalcRowFn w a.student_id tpl.subject_id t
            (((termAssignmentRows w a.student_id tpl.subject_id t).filterMap
              (fun r => r.points_earned)).sum)) } := by
  have hcond : (!a.is_graded || pyFalsyPoints a.points_earned) = false := by
    rw [hguard, hpts]
    rfl
  unfold StudentAssignment.update_term_grade
  rw [hcond]
  simp only [Bool.false_eq_true, if_false, hterm, htpl, hts]
  have hmap : ((termAssignmentRows w a.student_id tpl.subject_id t).map
      (fun r => r.points_earned)).filterMap id =
      (termAssignmentRows w a.student_id tpl.subject_id t).filterMap
        (fun r => r.points_earned) := by
    rw [List.filterMap_map]
    rfl
  rw [sqlSumRat_eq_some _ (by rw [hmap]; exact hne), hmap]

/-- C3 amended: on the non-skip recalculation path (with at least one
non-null `points_earned` among the rows in range), the row's earned total
is the SQL sum of `points_earned` over ALL in-range rows of the student
and subject — the code's query has no `is_graded` filter — while the
possible total is the claim's sum over the graded rows only. -/
theorem recalculation_totals_amended (w : World) (a : StudentAssignment) (t : Term)
    (tpl : AssignmentTemplate) (ts : TermSubject)
    (hguard : a.is_graded = true) (hpts : pyFalsyPoints a.points_earned = false)
    (hterm : activeTerm w = some t) (htpl : findTemplate w a.template_id = some tpl)
    (hts : findTermSubject w t.id tpl.subject_id = some ts)
    (hne : (termAssignmentRows w a.student_id tpl.subject_id t).filterMap
      (fun r => r.points_earned) ≠ []) :
    ∃ w' g, a.update_term_grade w = .ok w' ∧
      findStudentTermGrade w'.studentTermGrades a.student_id ts.id = some g ∧
      g.current_points_earned = codeEarnedSum w a.student_id tpl.subject_id t ∧
      g.current_points_possible =
        ((claimPossibleSum w a.student_id tpl.subject_id t : Int) : Rat) ∧
      g.assignments_completed = ((gradedTermRows w a.student_id tpl.subject_id t).length : Int) ∧
      g.assignments_total = ((termAssignmentRows w a.student_id tpl.subject_id t).length : Int) := by
  obtain ⟨g0, hg0⟩ := Option.isSome_iff_exists.mp
    (findStudentTermGrade_ensure_isSome w.studentTermGrades a.student_id ts.id)
  refine ⟨_, recalcRowFn w a.student_id tpl.subject_id t
      (codeEarnedSum w a.student_id tpl.subject_id t) g0,
    update_term_grade_run w a t tpl ts hguard hpts hterm htpl hts hne, ?_, ?_, ?_, ?_, ?_⟩
  · rw [findStudentTermGrade_updateFirst_same _ _ _ _
      (fun g => recalcRowFn_keys _ _ _ _ _ g), hg0]
    rfl
  · exact (recalcRowFn_fields _ _ _ _ _ _).1
  · exact (recalcRowFn_fields _ _ _ _ _ _).2.1
  · exact (recalcRowFn_fields _ _ _ _ _ _).2.2.1
  · exact (recalcRowFn_fields _ _ _ _ _ _).2.2.2.1

/-- C3 counterexample: with an ungraded in-range row carrying 10 points,
the recalculation stores an earned total of 60 (the SQL sum has no
`is_graded` filter) while the claim's graded-rows-only sum is 50. -/
theorem graded_totals_counterexample :
    ¬ RecalcSetsGradedTotals mixedGradingWorld gradedAssignment50 := by
  intro h
  obtain ⟨w', g, hok, hfind, hearned, -⟩ := h cexTerm cexTemplate cexTermSubject rfl rfl rfl
  have hpts : pyFalsyPoints gradedAssignment50.points_earned = false := by
    norm_num [pyFalsyPoints, gradedAssignment50]
  have hne : (termAssignmentRows mixedGradingWorld gradedAssignment50.student_id
      cexTemplate.subject_id cexTerm).filterMap (fun r => r.points_earned) ≠ [] := by
    decide
  have hrun := update_term_grade_run mixedGradingWorld gradedAssignment50 cexTerm
    cexTemplate cexTermSubject rfl hpts rfl rfl rfl hne
  rw [hrun] at hok
  obtain rfl : _ = w' := by injection hok
  have hg : g = recalcRowFn mixedGradingWorld gradedAssignment50.student_id
      cexTemplate.subject_id cexTerm
      (((termAssignmentRows mixedGradingWorld gradedAssignment50.student_id
        cexTemplate.subject_id cexTerm).filterMap (fun r => r.points_earned)).sum)
      (newStudentTermGrade gradedAssignment50.student_id cexTermSubject.id) := by
    rw [findStudentTermGrade_updateFirst_same _ _ _ _
      (fun g0 => recalcRowFn_keys _ _ _ _ _ g0)] at hfind
    have hens : findStudentTermGrade
        (ensureStudentTermGrade mixedGradingWorld.studentTermGrades
          gradedAssignment50.student_id cexTermSubject.id)
        gradedAssignment50.student_id cexTermSubject.id =
        some (newStudentTermGrade gradedAssignment50.student_id cexTermSubject.id) := by
      decide
    rw [hens] at hfind
    exact (Option.some_inj.mp hfind).symm
  have hcode : (((termAssignmentRows mixedGradingWorld gradedAssignment50.student_id
      cexTemplate.subject_id cexTerm).filterMap (fun r => r.points_earned)).sum : Rat) = 60 := by
    have hrows : termAssignmentRows mixedGradingWorld gradedAssignment50.student_id
        cexTemplate.subject_id cexTerm = [gradedAssignment50, ungradedRowWithPoints] := by
      decide
    rw [hrows]
    norm_num [gradedAssignment50, ungradedRowWithPoints, List.filterMap]
  have hclaim : claimEarnedSum mixedGradingWorld gradedAssignment50.student_id
      cexTemplate.subject_id cexTerm = 50 := by
    have hrows : gradedTermRows mixedGradingWorld gradedAssignment50.student_id
        cexTemplate.subject_id cexTerm = [gradedAssignment50] := by
      decide
    rw [claimEarnedSum, hrows]
    norm_num [gradedAssignment50, List.filterMap]
  rw [hg] at hearned
  rw [(recalcRowFn_fields _ _ _ _ _ _).1] at hearned
  rw [hcode, hclaim] at hearned
  exact absurd hearned (by norm_num)

/-- Witness for C3 (amended): the amended totals hold in the mixed
counterexample state. -/
theorem recalculation_totals_witness :
    ∃ w' g, gradedAssignment50.update_term_grade mixedGradingWorld = .ok w' ∧
      findStudentTermGrade w'.studentTermGrades 1 1 = some g ∧
      g.current_points_earned = codeEarnedSum mixedGradingWorld 1 1 cexTerm ∧
      g.current_points_possible =
        ((claimPossibleSum mixedGradingWorld 1 1 cexTerm : Int) : Rat) ∧
      g.assignments_completed = ((gradedTermRows mixedGradingWorld 1 1 cexTerm).length : Int) ∧
      g.assignments_total =
        ((termAssignmentRows mixedGradingWorld 1 1 cexTerm).length : Int) := by
  have hpts : pyFalsyPoints gradedAssignment50.points_earned = false := by
    norm_num [pyFalsyPoints, gradedAssignment50]
  have hne : (termAssignmentRows mixedGradingWorld gradedAssignment50.student_id
      cexTemplate.subject_id cexTerm).filterMap (fun r => r.points_earned) ≠ [] := by
    decide
  exact recalculation_totals_amended mixedGradingWorld gradedAssignment50 cexTerm
    cexTemplate cexTermSubject rfl hpts rfl rfl rfl hne

/-! Idempotence of the recalculation. -/

theorem activeTerm_set_stgs (w : World) (stgs : List StudentTermGrade) :
    activeTerm { w with studentTermGrades := stgs } = activeTerm w := rfl

theorem findTemplate_set_stgs (w : World) (stgs : List StudentTermGrade) (tid : Nat) :
    findTemplate { w with studentTermGrades := stgs } tid = findTemplate w tid := rfl

theorem findTermSubject_set_stgs (w : World) (stgs : List StudentTermGrade)
    (termId subjectId : Nat) :
    findTermSubject { w with studentTermGrades := stgs } termId subjectId =
      findTermSubject w termId subjectId := rfl

theorem termAssignmentRows_set_stgs (w : World) (stgs : List StudentTermGrade)
    (sid subjectId : Nat) (t : Term) :
    termAssignmentRows { w with studentTermGrades := stgs } sid subjectId t =
      termAssignmentRows w sid subjectId t := rfl

theorem recalcRowFn_set_stgs (w : World) (stgs : List StudentTermGrade)
    (sid subjectId : Nat) (t : Term) (e : Rat) :
    recalcRowFn { w with studentTermGrades := stgs } sid subjectId t e =
      recalcRowFn w sid subjectId t e := rfl

/-- A second `update_term_grade` run on the state the first run produced
returns exactly that state. -/
theorem update_term_grade_idem (w w1 : World) (a : StudentAssignment)
    (h1 : a.update_term_grade w = .ok w1) :
    a.update_term_grade w1 = .ok w1 := by
  unfold StudentAssignment.update_term_grade at h1 ⊢
  split at h1
  · rename_i hcond
    cases h1
    rw [if_pos hcond]
  · rename_i hcond
    rw [if_neg hcond]
    split at h1
    · rename_i heq
      cases h1
      simp only [heq]
    · rename_i t heq
      split at h1
      · cases h1
      · rename_i tpl heqtpl
        split at h1
        · rename_i heqts
          cases h1
          simp only [heq, heqtpl, heqts]
        · rename_i ts heqts
          dsimp only at h1
          split at h1
          · rename_i heqsum
            cases h1
            simp only [activeTerm_set_stgs, findTemplate_set_stgs, findTermSubject_set_stgs,
              termAssignmentRows_set_stgs, recalcRowFn_set_stgs, heq, heqtpl, heqts]
            rw [ensureStudentTermGrade_of_isSome _ _ _
              (findStudentTermGrade_ensure_isSome _ _ _)]
            simp only [heqsum]
          · rename_i esum heqsum
            cases h1
            simp only [activeTerm_set_stgs, findTemplate_set_stgs, findTermSubject_set_stgs,
              termAssignmentRows_set_stgs, recalcRowFn_set_stgs, heq, heqtpl, heqts]
            have hsome : (findStudentTermGrade
                (updateFirstStudentTermGrade
                  (ensureStudentTermGrade w.studentTermGrades a.student_id ts.id)
                  a.student_id ts.id
                  (recalcRowFn w a.student_id tpl.subject_id t esum))
                a.student_id ts.id).isSome := by
              rw [findStudentTermGrade_updateFirst_same _ _ _ _
                (fun g0 => recalcRowFn_keys _ _ _ _ _ g0)]
              have := findStudentTermGrade_ensure_isSome w.studentTermGrades a.student_id ts.id
              obtain ⟨g0, hg0⟩ := Option.isSome_iff_exists.mp this
              rw [hg0]
              rfl
            rw [ensureStudentTermGrade_of_isSome _ _ _ hsome]
            simp only [heqsum]
            rw [updateFirstStudentTermGrade_twice _ _ _ _
              (fun g0 => recalcRowFn_keys _ _ _ _ _ g0)
              (fun g0 => recalcRowFn_idem _ _ _ _ _ g0)]

/-- C4: the term-grade recalculation is an idempotent full recompute, in
both of its forms.  Running `update_term_grade` a second time on the state
the first run produced (same underlying assignment data) returns exactly
that state, so every `StudentTermGrade` field, in particular
`current_points_earned`, `current_points_possible`, `current_percentage`,
`current_letter_grade`, `assignments_completed` and `assignments_total`,
is identical after each run; and running the service-level
`calculate_student_term_grades` a second time on the state the first run
produced returns exactly that state (given distinct user ids and distinct
term-subject link ids, as the database's primary keys guarantee). -/
theorem recalculation_idempotent (w w1 v : World) (a : StudentAssignment)
    (term_id : Nat) (student_id : Option Nat)
    (husers : (v.users.map (fun u => u.id)).Nodup)
    (hts : (v.termSubjects.map (fun ts => ts.id)).Nodup)
    (h1 : a.update_term_grade w = .ok w1) :
    a.update_term_grade w1 = .ok w1 ∧
      calculate_student_term_grades (calculate_student_term_grades v term_id student_id)
          term_id student_id = calculate_student_term_grades v term_id student_id :=
  ⟨update_term_grade_idem w w1 a h1,
   calculate_student_term_grades_idempotent v term_id student_id husers hts⟩

/-- Witness for C4: a second recalculation run on the sample state
reproduces the first run's state exactly, for the model-level and the
service-level recomputation alike. -/
theorem recalculation_idempotent_witness :
    ∃ w1, gradedAssignment50.update_term_grade finalizedWorld = .ok w1 ∧
      gradedAssignment50.update_term_grade w1 = .ok w1 ∧
      calculate_student_term_grades
          (calculate_student_term_grades finalizedWorld 1 none) 1 none =
        calculate_student_term_grades finalizedWorld 1 none := by
  obtain ⟨stgs, hok⟩ := update_term_grade_shape gradedAssignment50 finalizedWorld (by rfl)
  obtain ⟨h2, h3⟩ := recalculation_idempotent finalizedWorld _ finalizedWorld
    gradedAssignment50 1 none (by decide) (by decide) hok
  exact ⟨_, hok, h2, h3⟩

theorem percentageInv_step (a : StudentAssignment) (max_points : Int) (p : Rat)
    (h : PercentageInv a max_points) :
    PercentageInv (applyGradeEvent a max_points p) max_points := by
  unfold applyGradeEvent StudentAssignment.calculate_percentage_grade
  by_cases hm : 0 < max_points
  · simp only [hm, if_pos]
    constructor
    · simp [hm]
    · intro v hv
      simp only [] at hv
      exact ⟨p, rfl, by simpa using hv.symm⟩
  · simp only [hm, if_neg, if_false]
    constructor
    · constructor
      · intro hs
        exact absurd ((h.1).mp (by simpa using hs)).2 hm
      · rintro ⟨-, hc⟩
        exact absurd hc hm
    · intro v hv
      simp only [] at hv
      rcases (h.2) v hv with ⟨q, hq, hval⟩
      exact absurd ((h.1).mp (by simp [hv])).2 hm

/-- C9: starting from a fresh assignment, after any sequence of grading
events `percentage_grade` is non-null iff `points_earned` is non-null and
`max_points > 0`, and when non-null it equals
`points_earned / max_points * 100`; a non-positive `max_points` leaves the
percentage undefined instead of raising. -/
theorem percentageInv_fold (ps : List Rat) (a : StudentAssignment) (max_points : Int)
    (h : PercentageInv a max_points) :
    PercentageInv (ps.foldl (fun acc p => applyGradeEvent acc max_points p) a)
      max_points := by
  induction ps generalizing a with
  | nil => exact h
  | cons p rest ih => exact ih _ (percentageInv_step _ _ _ h)

/-- C9: starting from a fresh assignment, after any sequence of grading
events `percentage_grade` is non-null iff `points_earned` is non-null and
`max_points > 0`, and when non-null it equals
`points_earned / max_points * 100`; a non-positive `max_points` leaves the
percentage undefined instead of raising. -/
theorem percentage_grade_invariant (id template_id student_id : Nat)
    (assigned_date : Int) (max_points : Int) (ps : List Rat) :
    PercentageInv (runGradeEvents (freshAssignment id template_id student_id assigned_date)
      max_points ps) max_points := by
  have hbase : PercentageInv (freshAssignment id template_id student_id assigned_date)
      max_points := by
    constructor
    · simp [freshAssignment]
    · intro v hv
      simp [freshAssignment] at hv
  exact percentageInv_fold ps _ max_points hbase

end OurSchool
